import Mathlib

/-!
Acceleration-structure build procedure of Tutorial 02

A shallow embedding of `Source/02_AccelerationStructure/02_AccelerationStructure.cpp`:
the destructor `~TutorialApplication`, the method `CreateAccelerationStructures` and its two
local lambdas `CreateAccelerationStructure` and `GetScratchBufferSize`.

The procedure is a straight line of calls into the graphics device.  Every such call is
recorded, with its arguments and with what the device answered, in a call trace.  The device
itself is an arbitrary stream of answers: answer number `n` is what the device gives to the
call made when `n` calls are already in the trace.  Whatever a device makes its answers depend
on, its answers to one run form such a stream, so what holds for every stream holds for every
device.  A fatal error (`ExitError`) ends the run and keeps the trace recorded so far.

Left out of the records are the members that are constant tags or null in every call of the
source: `sType`, `pNext`, the null allocator argument, `pInheritanceInfo`, the null semaphore
arrays of the submission, `pDeviceIndices`, and the zeroed `aabbs` member of the geometry.
-/

set_option autoImplicit false

namespace VkRay

/-! ## Handles, status codes and the constants of the graphics API -/

/-- Device object handles (`VkBuffer`, `VkDeviceMemory`, `VkAccelerationStructureNV`, ...). -/
abbrev Handle := Nat

/-- The null handle. -/
def VK_NULL_HANDLE : Handle := 0

/-- Status code returned by a device operation. -/
abbrev VkResult := Int

/-- The only status code that means success. -/
def VK_SUCCESS : VkResult := 0

/-- Unsigned 64-bit device size. -/
abbrev VkDeviceSize := Nat

def VK_BUFFER_USAGE_INDEX_BUFFER_BIT : Nat := 0x40
def VK_BUFFER_USAGE_VERTEX_BUFFER_BIT : Nat := 0x80
def VK_BUFFER_USAGE_RAY_TRACING_BIT_NV : Nat := 0x400

def VK_MEMORY_PROPERTY_DEVICE_LOCAL_BIT : Nat := 0x1
def VK_MEMORY_PROPERTY_HOST_VISIBLE_BIT : Nat := 0x2
def VK_MEMORY_PROPERTY_HOST_COHERENT_BIT : Nat := 0x4

def VK_PIPELINE_STAGE_RAY_TRACING_SHADER_BIT_NV : Nat := 0x00200000
def VK_PIPELINE_STAGE_ACCELERATION_STRUCTURE_BUILD_BIT_NV : Nat := 0x02000000

def VK_ACCESS_ACCELERATION_STRUCTURE_READ_BIT_NV : Nat := 0x00200000
def VK_ACCESS_ACCELERATION_STRUCTURE_WRITE_BIT_NV : Nat := 0x00400000

def VK_COMMAND_BUFFER_USAGE_ONE_TIME_SUBMIT_BIT : Nat := 0x1
def VK_COMMAND_BUFFER_LEVEL_PRIMARY : Nat := 0

def VK_GEOMETRY_INSTANCE_TRIANGLE_CULL_DISABLE_BIT_NV : Nat := 0x1

def VK_FORMAT_R32G32B32_SFLOAT : Nat := 106
def VK_INDEX_TYPE_UINT16 : Nat := 0
def VK_GEOMETRY_TYPE_TRIANGLES_NV : Nat := 0

inductive VkAccelerationStructureTypeNV where
  | VK_ACCELERATION_STRUCTURE_TYPE_TOP_LEVEL_NV
  | VK_ACCELERATION_STRUCTURE_TYPE_BOTTOM_LEVEL_NV
  deriving DecidableEq, Repr

inductive VkAccelerationStructureMemoryRequirementsTypeNV where
  | VK_ACCELERATION_STRUCTURE_MEMORY_REQUIREMENTS_TYPE_OBJECT_NV
  | VK_ACCELERATION_STRUCTURE_MEMORY_REQUIREMENTS_TYPE_BUILD_SCRATCH_NV
  | VK_ACCELERATION_STRUCTURE_MEMORY_REQUIREMENTS_TYPE_UPDATE_SCRATCH_NV
  deriving DecidableEq, Repr

open VkAccelerationStructureTypeNV VkAccelerationStructureMemoryRequirementsTypeNV

/-! ## Records passed to the device -/

/-- The local `struct Vertex { float X, Y, Z; }`.  The coordinates are literals that are never
computed with, so each is kept as the exact value of its literal. -/
structure Vertex where
  X : ℚ
  Y : ℚ
  Z : ℚ
  deriving DecidableEq

structure VkGeometryTrianglesNV where
  vertexData : Handle
  vertexOffset : VkDeviceSize
  vertexCount : Nat
  vertexStride : VkDeviceSize
  vertexFormat : Nat
  indexData : Handle
  indexOffset : VkDeviceSize
  indexCount : Nat
  indexType : Nat
  transformData : Handle
  transformOffset : VkDeviceSize
  deriving DecidableEq

structure VkGeometryNV where
  geometryType : Nat
  triangles : VkGeometryTrianglesNV
  flags : Nat
  deriving DecidableEq

/-- `VkAccelerationStructureInfoNV`; `pGeometries` is `none` for `nullptr`, else the array the
pointer refers to. -/
structure VkAccelerationStructureInfoNV where
  type : VkAccelerationStructureTypeNV
  flags : Nat
  instanceCount : Nat
  geometryCount : Nat
  pGeometries : Option (List VkGeometryNV)
  deriving DecidableEq

structure VkAccelerationStructureCreateInfoNV where
  compactedSize : VkDeviceSize
  info : VkAccelerationStructureInfoNV
  deriving DecidableEq

structure VkMemoryRequirements where
  size : VkDeviceSize
  alignment : VkDeviceSize
  memoryTypeBits : Nat
  deriving DecidableEq

structure VkMemoryRequirements2 where
  memoryRequirements : VkMemoryRequirements
  deriving DecidableEq

structure VkMemoryAllocateInfo where
  allocationSize : VkDeviceSize
  memoryTypeIndex : Nat
  deriving DecidableEq

structure VkBindAccelerationStructureMemoryInfoNV where
  accelerationStructure : Handle
  memory : Handle
  memoryOffset : VkDeviceSize
  deviceIndexCount : Nat
  deriving DecidableEq

structure VkMemoryBarrier where
  srcAccessMask : Nat
  dstAccessMask : Nat
  deriving DecidableEq

structure VkCommandBufferAllocateInfo where
  commandPool : Handle
  level : Nat
  commandBufferCount : Nat
  deriving DecidableEq

structure VkSubmitInfo where
  waitSemaphoreCount : Nat
  commandBufferCount : Nat
  pCommandBuffers : List Handle
  signalSemaphoreCount : Nat
  deriving DecidableEq

/-- Modelled from the spec: the record type `VkGeometryInstance`, declared in the header
`../Common/RayTracingApplication.h` that is not part of the sources.  The spec describes it as
a fixed-size record of a 3x4 row-major transform, an identifier, a visibility mask, an offset,
flags, and the opaque 64-bit handle of the bottom-level structure. -/
structure VkGeometryInstance where
  transform : List ℚ
  instanceId : Nat
  mask : Nat
  instanceOffset : Nat
  flags : Nat
  accelerationStructureHandle : Nat
  deriving DecidableEq

/-- Host memory handed to `CopyToBufferUsingMapUnmap`. -/
inductive HostData where
  | vertices (v : List Vertex)
  | indices (i : List Nat)
  | instanceRecord (r : VkGeometryInstance)
  deriving DecidableEq

/-! ## The call trace -/

/-- One call into the device, with its arguments and with what the device answered.
`BufferResource::Create` and `BufferResource::CopyToBufferUsingMapUnmap` are methods of a class
that is not in the sources; each is one call whose result is an answer of the device.
`BufferResource_leavesScope` marks the end of the scope of a local `BufferResource` on a normal
return, where C++ runs its destructor; a fatal exit does not get there. -/
inductive Call where
  | BufferResource_Create (size : VkDeviceSize) (usage memoryProperties : Nat)
      (code : VkResult) (Buffer : Handle)
  | CopyToBufferUsingMapUnmap (Buffer : Handle) (memoryToCopyFrom : HostData)
      (size : VkDeviceSize) (copied : Bool)
  | vkCreateAccelerationStructureNV (device : Handle)
      (createInfo : VkAccelerationStructureCreateInfoNV) (code : VkResult) (AS : Handle)
  | vkGetAccelerationStructureMemoryRequirementsNV (device : Handle)
      (accelerationStructure : Handle)
      (type : VkAccelerationStructureMemoryRequirementsTypeNV)
      (memoryRequirements : VkMemoryRequirements2)
  | vkAllocateMemory (device : Handle) (allocateInfo : VkMemoryAllocateInfo)
      (code : VkResult) (memory : Handle)
  | vkBindAccelerationStructureMemoryNV (device : Handle) (bindInfoCount : Nat)
      (bindInfo : VkBindAccelerationStructureMemoryInfoNV) (code : VkResult)
  | vkGetAccelerationStructureHandleNV (device : Handle) (accelerationStructure : Handle)
      (dataSize : Nat) (code : VkResult) (data : Nat)
  | vkAllocateCommandBuffers (device : Handle) (allocateInfo : VkCommandBufferAllocateInfo)
      (code : VkResult) (commandBuffer : Handle)
  | vkBeginCommandBuffer (commandBuffer : Handle) (flags : Nat) (code : VkResult)
  | vkCmdBuildAccelerationStructureNV (commandBuffer : Handle)
      (info : VkAccelerationStructureInfoNV) (instanceData : Handle)
      (instanceOffset : VkDeviceSize) (update : Bool) (dst src scratch : Handle)
      (scratchOffset : VkDeviceSize)
  | vkCmdPipelineBarrier (commandBuffer : Handle) (srcStageMask dstStageMask : Nat)
      (dependencyFlags : Nat) (memoryBarriers : List VkMemoryBarrier)
      (bufferMemoryBarrierCount imageMemoryBarrierCount : Nat)
  | vkEndCommandBuffer (commandBuffer : Handle) (code : VkResult)
  | vkQueueSubmit (queue : Handle) (submitCount : Nat) (submit : VkSubmitInfo)
      (fence : Handle) (code : VkResult)
  | vkQueueWaitIdle (queue : Handle) (code : VkResult)
  | vkFreeCommandBuffers (device commandPool : Handle) (commandBuffers : List Handle)
  | vkDestroyAccelerationStructureNV (device accelerationStructure : Handle)
  | vkFreeMemory (device memory : Handle)
  | BufferResource_leavesScope (Buffer : Handle)
  deriving DecidableEq

/-! ## The application object, the device and the program monad -/

/-- The fields of `TutorialApplication`: its own four handles, and the device, command pool and
graphics queue it inherits from `RayTracingApplication`. -/
structure TutorialApplication where
  _device : Handle
  _commandPool : Handle
  _graphicsQueue : Handle
  _topASMemory : Handle := VK_NULL_HANDLE
  _topAS : Handle := VK_NULL_HANDLE
  _bottomASMemory : Handle := VK_NULL_HANDLE
  _bottomAS : Handle := VK_NULL_HANDLE
  deriving DecidableEq

/-- What the device gives back on one call: a status code, the handle it created, the memory
requirements it reports, the outcome of a copy, and the 64-bit datum of a handle query.  A call
reads the parts it has an output for. -/
structure Response where
  code : VkResult
  handle : Handle
  memoryRequirements : VkMemoryRequirements2
  copied : Bool
  data : Nat

/-- The device: its answer to the call made when `n` calls are already in the trace. -/
abbrev Device := Nat → Response

/-- What is not in the sources and is taken as given: the size in bytes of `VkGeometryInstance`
and the helper `ResourceBase::GetMemoryType`. -/
structure Env where
  sizeofVkGeometryInstance : Nat
  GetMemoryType : VkMemoryRequirements → Nat → Nat

/-- The state a run works on. -/
structure World where
  trace : List Call
  app : TutorialApplication

/-- How a piece of the procedure ends: it goes on with a value, or the process exits with a
message. -/
inductive Step (α : Type) where
  | ok (a : α) (w : World)
  | exit (message : String) (w : World)

/-- A piece of the procedure: it runs against a device from a state. -/
def Prog (α : Type) : Type := Device → World → Step α

def Prog.pure {α : Type} (a : α) : Prog α := fun _ w => Step.ok a w

/-- Go on after a step: an exit is final. -/
def Step.andThen {α β : Type} (s : Step α) (k : α → World → Step β) : Step β :=
  match s with
  | Step.ok a w1 => k a w1
  | Step.exit m w1 => Step.exit m w1

def Prog.bind {α β : Type} (x : Prog α) (f : α → Prog β) : Prog β := fun dev w =>
  (x dev w).andThen fun a w1 => f a dev w1

instance : Monad Prog where
  pure := Prog.pure
  bind := Prog.bind

/-- Make one call: the device answers, and the call with its answer joins the trace. -/
def call (mk : Response → Call) : Prog Response := fun dev w =>
  let r := dev w.trace.length
  Step.ok r { w with trace := w.trace ++ [mk r] }

def getApp : Prog TutorialApplication := fun _ w => Step.ok w.app w

def modifyApp (f : TutorialApplication → TutorialApplication) : Prog Unit := fun _ w =>
  Step.ok () { w with app := f w.app }

/-- Modelled from the spec: `ExitError` of the absent common header; it reports the message and
the process exits immediately. -/
def ExitError {α : Type} (message : String) : Prog α := fun _ w => Step.exit message w

/-- Modelled from the spec: the macro `NVVK_CHECK_ERROR` of the absent common header; any
non-success code is fatal and is reported with the message naming the failed operation. -/
def NVVK_CHECK_ERROR (code : VkResult) (message : String) : Prog Unit :=
  if code ≠ VK_SUCCESS then ExitError message else Prog.pure ()

/-- A reference parameter of type `VkAccelerationStructureNV&`: the structure field of the
application object it refers to. -/
inductive ASRef where
  | _topAS
  | _bottomAS
  deriving DecidableEq

/-- A reference parameter of type `VkDeviceMemory&`: the memory field of the application object
it refers to. -/
inductive MemoryRef where
  | _topASMemory
  | _bottomASMemory
  deriving DecidableEq

def ASRef.get : ASRef → TutorialApplication → Handle
  | ASRef._topAS, a => a._topAS
  | ASRef._bottomAS, a => a._bottomAS

def ASRef.set : ASRef → Handle → TutorialApplication → TutorialApplication
  | ASRef._topAS, h, a => { a with _topAS := h }
  | ASRef._bottomAS, h, a => { a with _bottomAS := h }

def MemoryRef.get : MemoryRef → TutorialApplication → Handle
  | MemoryRef._topASMemory, a => a._topASMemory
  | MemoryRef._bottomASMemory, a => a._bottomASMemory

def MemoryRef.set : MemoryRef → Handle → TutorialApplication → TutorialApplication
  | MemoryRef._topASMemory, h, a => { a with _topASMemory := h }
  | MemoryRef._bottomASMemory, h, a => { a with _bottomASMemory := h }

/-! ## The destructor -/

/-- The destructor `TutorialApplication::~TutorialApplication`: four guarded releases, in the
order of the source.  Its calls return nothing, so it is a function to the calls it makes. -/
def destructor (self : TutorialApplication) : List Call :=
  let t0 : List Call := []
  let t1 := if self._topAS ≠ VK_NULL_HANDLE then
      t0 ++ [Call.vkDestroyAccelerationStructureNV self._device self._topAS] else t0
  let t2 := if self._topASMemory ≠ VK_NULL_HANDLE then
      t1 ++ [Call.vkFreeMemory self._device self._topASMemory] else t1
  let t3 := if self._bottomAS ≠ VK_NULL_HANDLE then
      t2 ++ [Call.vkDestroyAccelerationStructureNV self._device self._bottomAS] else t2
  let t4 := if self._bottomASMemory ≠ VK_NULL_HANDLE then
      t3 ++ [Call.vkFreeMemory self._device self._bottomASMemory] else t3
  t4

/-! ## The two lambdas -/

/-- The lambda `CreateAccelerationStructure` (source lines 145-192). -/
def CreateAccelerationStructure (env : Env) (type : VkAccelerationStructureTypeNV)
    (geometryCount : Nat) (geometries : Option (List VkGeometryNV)) (instanceCount : Nat)
    (AS : ASRef) (memory : MemoryRef) : Prog Unit := do
  let self ← getApp
  let accelerationStructureInfo : VkAccelerationStructureCreateInfoNV :=
    { compactedSize := 0
      info := { type := type, flags := 0, instanceCount := instanceCount,
                geometryCount := geometryCount, pGeometries := geometries } }
  let r ← call fun r =>
    Call.vkCreateAccelerationStructureNV self._device accelerationStructureInfo r.code r.handle
  modifyApp (AS.set r.handle)
  NVVK_CHECK_ERROR r.code "vkCreateAccelerationStructureNV"
  let self ← getApp
  let q ← call fun r =>
    Call.vkGetAccelerationStructureMemoryRequirementsNV self._device (AS.get self)
      VK_ACCELERATION_STRUCTURE_MEMORY_REQUIREMENTS_TYPE_OBJECT_NV r.memoryRequirements
  let memoryRequirements := q.memoryRequirements
  let memoryAllocateInfo : VkMemoryAllocateInfo :=
    { allocationSize := memoryRequirements.memoryRequirements.size
      memoryTypeIndex := env.GetMemoryType memoryRequirements.memoryRequirements
        VK_MEMORY_PROPERTY_DEVICE_LOCAL_BIT }
  let r ← call fun r => Call.vkAllocateMemory self._device memoryAllocateInfo r.code r.handle
  modifyApp (memory.set r.handle)
  NVVK_CHECK_ERROR r.code "rt AS vkAllocateMemory"
  let self ← getApp
  let bindInfo : VkBindAccelerationStructureMemoryInfoNV :=
    { accelerationStructure := AS.get self, memory := memory.get self, memoryOffset := 0,
      deviceIndexCount := 0 }
  let r ← call fun r => Call.vkBindAccelerationStructureMemoryNV self._device 1 bindInfo r.code
  NVVK_CHECK_ERROR r.code "vkBindAccelerationStructureMemoryNV"

/-- The lambda `GetScratchBufferSize` (source lines 247-260). -/
def GetScratchBufferSize (handle : Handle) : Prog VkDeviceSize := do
  let self ← getApp
  let q ← call fun r =>
    Call.vkGetAccelerationStructureMemoryRequirementsNV self._device handle
      VK_ACCELERATION_STRUCTURE_MEMORY_REQUIREMENTS_TYPE_BUILD_SCRATCH_NV r.memoryRequirements
  let memoryRequirements := q.memoryRequirements
  let result := memoryRequirements.memoryRequirements.size
  return result

/-! ## The method -/

/-- The method `TutorialApplication::CreateAccelerationStructures` (source lines 59-343). -/
def CreateAccelerationStructures (env : Env) : Prog Unit := do
  -- 1. CREATE GEOMETRY
  let vertices : List Vertex :=
    [ ⟨-1/2, -1/2, 0⟩,
      ⟨0, 1/2, 0⟩,
      ⟨1/2, -1/2, 0⟩ ]
  let vertexCount : Nat := vertices.length % 2 ^ 32
  let vertexSize : VkDeviceSize := 12
  let vertexBufferSize : VkDeviceSize := vertexCount * vertexSize % 2 ^ 64
  let indices : List Nat := [0, 1, 2]
  let indexCount : Nat := indices.length % 2 ^ 32
  let indexSize : VkDeviceSize := 2
  let indexBufferSize : VkDeviceSize := indexCount * indexSize % 2 ^ 64
  let r ← call fun r =>
    Call.BufferResource_Create vertexBufferSize VK_BUFFER_USAGE_VERTEX_BUFFER_BIT
      (VK_MEMORY_PROPERTY_HOST_VISIBLE_BIT ||| VK_MEMORY_PROPERTY_HOST_COHERENT_BIT)
      r.code r.handle
  let vertexBuffer := r.handle
  NVVK_CHECK_ERROR r.code "rt vertexBuffer.Create"
  let r ← call fun r =>
    Call.CopyToBufferUsingMapUnmap vertexBuffer (HostData.vertices vertices) vertexBufferSize
      r.copied
  let copied := r.copied
  if !copied then
    ExitError "Failed to copy vertex buffer"
  let r ← call fun r =>
    Call.BufferResource_Create indexBufferSize VK_BUFFER_USAGE_INDEX_BUFFER_BIT
      (VK_MEMORY_PROPERTY_HOST_VISIBLE_BIT ||| VK_MEMORY_PROPERTY_HOST_COHERENT_BIT)
      r.code r.handle
  let indexBuffer := r.handle
  NVVK_CHECK_ERROR r.code "rt indexBuffer.Create"
  let r ← call fun r =>
    Call.CopyToBufferUsingMapUnmap indexBuffer (HostData.indices indices) indexBufferSize
      r.copied
  let copied := r.copied
  if !copied then
    ExitError "Failed to copy index buffer"
  let geometry : VkGeometryNV :=
    { geometryType := VK_GEOMETRY_TYPE_TRIANGLES_NV
      triangles :=
        { vertexData := vertexBuffer
          vertexOffset := 0
          vertexCount := vertexCount
          vertexStride := vertexSize
          vertexFormat := VK_FORMAT_R32G32B32_SFLOAT
          indexData := indexBuffer
          indexOffset := 0
          indexCount := indexCount
          indexType := VK_INDEX_TYPE_UINT16
          transformData := VK_NULL_HANDLE
          transformOffset := 0 }
      flags := 0 }
  let geometries : List VkGeometryNV := [geometry]
  -- 2. CREATE BOTTOM LEVEL ACCELERATION STRUCTURES
  CreateAccelerationStructure env VK_ACCELERATION_STRUCTURE_TYPE_BOTTOM_LEVEL_NV
    (geometries.length % 2 ^ 32) (some geometries) 0
    ASRef._bottomAS MemoryRef._bottomASMemory
  -- 3. CREATE INSTANCE BUFFER
  let self ← getApp
  let r ← call fun r =>
    Call.vkGetAccelerationStructureHandleNV self._device self._bottomAS 8 r.code
      (r.data % 2 ^ 64)
  let accelerationStructureHandle : Nat := r.data % 2 ^ 64
  NVVK_CHECK_ERROR r.code "vkGetAccelerationStructureHandleNV"
  let transform : List ℚ :=
    [ 1, 0, 0, 0,
      0, 1, 0, 0,
      0, 0, 1, 0 ]
  let inst : VkGeometryInstance :=
    { transform := transform
      instanceId := 0
      mask := 0xff
      instanceOffset := 0
      flags := VK_GEOMETRY_INSTANCE_TRIANGLE_CULL_DISABLE_BIT_NV
      accelerationStructureHandle := accelerationStructureHandle }
  let instanceBufferSize : Nat := env.sizeofVkGeometryInstance % 2 ^ 32
  let r ← call fun r =>
    Call.BufferResource_Create instanceBufferSize VK_BUFFER_USAGE_RAY_TRACING_BIT_NV
      (VK_MEMORY_PROPERTY_HOST_VISIBLE_BIT ||| VK_MEMORY_PROPERTY_HOST_COHERENT_BIT)
      r.code r.handle
  let instanceBuffer := r.handle
  NVVK_CHECK_ERROR r.code "rt instanceBuffer.Create"
  let _ ← call fun r =>
    Call.CopyToBufferUsingMapUnmap instanceBuffer (HostData.instanceRecord inst)
      instanceBufferSize r.copied
  -- 4. CREATE TOP LEVEL ACCELERATION STRUCTURES
  CreateAccelerationStructure env VK_ACCELERATION_STRUCTURE_TYPE_TOP_LEVEL_NV
    0 none 1
    ASRef._topAS MemoryRef._topASMemory
  -- 5. BUILD ACCELERATION STRUCTURES
  let self ← getApp
  let bottomAccelerationStructureBufferSize ← GetScratchBufferSize self._bottomAS
  let topAccelerationStructureBufferSize ← GetScratchBufferSize self._topAS
  let scratchBufferSize : VkDeviceSize :=
    max bottomAccelerationStructureBufferSize topAccelerationStructureBufferSize
  let r ← call fun r =>
    Call.BufferResource_Create scratchBufferSize VK_BUFFER_USAGE_RAY_TRACING_BIT_NV
      VK_MEMORY_PROPERTY_DEVICE_LOCAL_BIT r.code r.handle
  let scratchBuffer := r.handle
  let commandBufferAllocateInfo : VkCommandBufferAllocateInfo :=
    { commandPool := self._commandPool
      level := VK_COMMAND_BUFFER_LEVEL_PRIMARY
      commandBufferCount := 1 }
  let r ← call fun r =>
    Call.vkAllocateCommandBuffers self._device commandBufferAllocateInfo r.code r.handle
  let commandBuffer := r.handle
  NVVK_CHECK_ERROR r.code "rt vkAllocateCommandBuffers"
  let _ ← call fun r =>
    Call.vkBeginCommandBuffer commandBuffer VK_COMMAND_BUFFER_USAGE_ONE_TIME_SUBMIT_BIT r.code
  let memoryBarrier : VkMemoryBarrier :=
    { srcAccessMask := VK_ACCESS_ACCELERATION_STRUCTURE_WRITE_BIT_NV |||
        VK_ACCESS_ACCELERATION_STRUCTURE_READ_BIT_NV
      dstAccessMask := VK_ACCESS_ACCELERATION_STRUCTURE_WRITE_BIT_NV |||
        VK_ACCESS_ACCELERATION_STRUCTURE_READ_BIT_NV }
  let asInfo : VkAccelerationStructureInfoNV :=
    { type := VK_ACCELERATION_STRUCTURE_TYPE_BOTTOM_LEVEL_NV
      flags := 0
      instanceCount := 0
      geometryCount := geometries.length % 2 ^ 32
      pGeometries := some geometries }
  let _ ← call fun _ =>
    Call.vkCmdBuildAccelerationStructureNV commandBuffer asInfo VK_NULL_HANDLE 0 false
      self._bottomAS VK_NULL_HANDLE scratchBuffer 0
  let _ ← call fun _ =>
    Call.vkCmdPipelineBarrier commandBuffer
      VK_PIPELINE_STAGE_ACCELERATION_STRUCTURE_BUILD_BIT_NV
      VK_PIPELINE_STAGE_ACCELERATION_STRUCTURE_BUILD_BIT_NV 0 [memoryBarrier] 0 0
  let asInfo : VkAccelerationStructureInfoNV :=
    { type := VK_ACCELERATION_STRUCTURE_TYPE_TOP_LEVEL_NV
      flags := 0
      instanceCount := 1
      geometryCount := 0
      pGeometries := none }
  let _ ← call fun _ =>
    Call.vkCmdBuildAccelerationStructureNV commandBuffer asInfo instanceBuffer 0 false
      self._topAS VK_NULL_HANDLE scratchBuffer 0
  let _ ← call fun _ =>
    Call.vkCmdPipelineBarrier commandBuffer
      VK_PIPELINE_STAGE_ACCELERATION_STRUCTURE_BUILD_BIT_NV
      VK_PIPELINE_STAGE_RAY_TRACING_SHADER_BIT_NV 0 [memoryBarrier] 0 0
  let _ ← call fun r => Call.vkEndCommandBuffer commandBuffer r.code
  let submitInfo : VkSubmitInfo :=
    { waitSemaphoreCount := 0
      commandBufferCount := 1
      pCommandBuffers := [commandBuffer]
      signalSemaphoreCount := 0 }
  let _ ← call fun r =>
    Call.vkQueueSubmit self._graphicsQueue 1 submitInfo VK_NULL_HANDLE r.code
  let _ ← call fun r => Call.vkQueueWaitIdle self._graphicsQueue r.code
  let _ ← call fun _ => Call.vkFreeCommandBuffers self._device self._commandPool [commandBuffer]
  -- the locals leave scope: scratchBuffer at line 342, the other three at line 343
  let _ ← call fun _ => Call.BufferResource_leavesScope scratchBuffer
  let _ ← call fun _ => Call.BufferResource_leavesScope instanceBuffer
  let _ ← call fun _ => Call.BufferResource_leavesScope indexBuffer
  let _ ← call fun _ => Call.BufferResource_leavesScope vertexBuffer

/-- A run of `CreateAccelerationStructures` on a freshly constructed application object (all
four handles null), against a device, from the empty trace. -/
def run (env : Env) (dev : Device) (device commandPool graphicsQueue : Handle) : Step Unit :=
  CreateAccelerationStructures env dev
    { trace := [],
      app := { _device := device, _commandPool := commandPool, _graphicsQueue := graphicsQueue } }

def Step.trace {α : Type} : Step α → List Call
  | Step.ok _ w => w.trace
  | Step.exit _ w => w.trace

def Step.app {α : Type} : Step α → TutorialApplication
  | Step.ok _ w => w.app
  | Step.exit _ w => w.app

/-- The message the process exited with, if it did. -/
def Step.exitMessage {α : Type} : Step α → Option String
  | Step.ok _ _ => none
  | Step.exit m _ => some m

/-! ## The run, laid out flat

The procedure has no loop and no branch other than the fatal checks, so a run is the straight
line of its calls, cut after the first check that fails. -/

/-- The calls of a run that no check stops, in order; call `n` carries answer `n`. -/
def straightLine (env : Env) (dev : Device) (device commandPool graphicsQueue : Handle) :
    List Call :=
  let hostVisible := VK_MEMORY_PROPERTY_HOST_VISIBLE_BIT ||| VK_MEMORY_PROPERTY_HOST_COHERENT_BIT
  let vertexBuffer := (dev 0).handle
  let indexBuffer := (dev 2).handle
  let geometries : List VkGeometryNV :=
    [{ geometryType := VK_GEOMETRY_TYPE_TRIANGLES_NV
       triangles :=
         { vertexData := vertexBuffer, vertexOffset := 0, vertexCount := 3, vertexStride := 12,
           vertexFormat := VK_FORMAT_R32G32B32_SFLOAT, indexData := indexBuffer, indexOffset := 0,
           indexCount := 3, indexType := VK_INDEX_TYPE_UINT16, transformData := VK_NULL_HANDLE,
           transformOffset := 0 }
       flags := 0 }]
  let bottomInfo : VkAccelerationStructureInfoNV :=
    { type := VK_ACCELERATION_STRUCTURE_TYPE_BOTTOM_LEVEL_NV, flags := 0, instanceCount := 0,
      geometryCount := 1, pGeometries := some geometries }
  let topInfo : VkAccelerationStructureInfoNV :=
    { type := VK_ACCELERATION_STRUCTURE_TYPE_TOP_LEVEL_NV, flags := 0, instanceCount := 1,
      geometryCount := 0, pGeometries := none }
  let bottomAS := (dev 4).handle
  let bottomASMemory := (dev 6).handle
  let instanceBuffer := (dev 9).handle
  let topAS := (dev 11).handle
  let topASMemory := (dev 13).handle
  let scratchBuffer := (dev 17).handle
  let commandBuffer := (dev 18).handle
  let memoryBarrier : VkMemoryBarrier :=
    { srcAccessMask := VK_ACCESS_ACCELERATION_STRUCTURE_WRITE_BIT_NV |||
        VK_ACCESS_ACCELERATION_STRUCTURE_READ_BIT_NV
      dstAccessMask := VK_ACCESS_ACCELERATION_STRUCTURE_WRITE_BIT_NV |||
        VK_ACCESS_ACCELERATION_STRUCTURE_READ_BIT_NV }
  [ Call.BufferResource_Create 36 VK_BUFFER_USAGE_VERTEX_BUFFER_BIT hostVisible
      (dev 0).code vertexBuffer,
    Call.CopyToBufferUsingMapUnmap vertexBuffer
      (HostData.vertices [⟨-1/2, -1/2, 0⟩, ⟨0, 1/2, 0⟩, ⟨1/2, -1/2, 0⟩]) 36 (dev 1).copied,
    Call.BufferResource_Create 6 VK_BUFFER_USAGE_INDEX_BUFFER_BIT hostVisible
      (dev 2).code indexBuffer,
    Call.CopyToBufferUsingMapUnmap indexBuffer (HostData.indices [0, 1, 2]) 6 (dev 3).copied,
    Call.vkCreateAccelerationStructureNV device ⟨0, bottomInfo⟩ (dev 4).code bottomAS,
    Call.vkGetAccelerationStructureMemoryRequirementsNV device bottomAS
      VK_ACCELERATION_STRUCTURE_MEMORY_REQUIREMENTS_TYPE_OBJECT_NV (dev 5).memoryRequirements,
    Call.vkAllocateMemory device
      { allocationSize := (dev 5).memoryRequirements.memoryRequirements.size
        memoryTypeIndex := env.GetMemoryType (dev 5).memoryRequirements.memoryRequirements
          VK_MEMORY_PROPERTY_DEVICE_LOCAL_BIT }
      (dev 6).code bottomASMemory,
    Call.vkBindAccelerationStructureMemoryNV device 1
      { accelerationStructure := bottomAS, memory := bottomASMemory, memoryOffset := 0,
        deviceIndexCount := 0 }
      (dev 7).code,
    Call.vkGetAccelerationStructureHandleNV device bottomAS 8 (dev 8).code
      ((dev 8).data % 2 ^ 64),
    Call.BufferResource_Create (env.sizeofVkGeometryInstance % 2 ^ 32)
      VK_BUFFER_USAGE_RAY_TRACING_BIT_NV hostVisible (dev 9).code instanceBuffer,
    Call.CopyToBufferUsingMapUnmap instanceBuffer
      (HostData.instanceRecord
        { transform := [1, 0, 0, 0, 0, 1, 0, 0, 0, 0, 1, 0], instanceId := 0, mask := 0xff,
          instanceOffset := 0, flags := VK_GEOMETRY_INSTANCE_TRIANGLE_CULL_DISABLE_BIT_NV,
          accelerationStructureHandle := (dev 8).data % 2 ^ 64 })
      (env.sizeofVkGeometryInstance % 2 ^ 32) (dev 10).copied,
    Call.vkCreateAccelerationStructureNV device ⟨0, topInfo⟩ (dev 11).code topAS,
    Call.vkGetAccelerationStructureMemoryRequirementsNV device topAS
      VK_ACCELERATION_STRUCTURE_MEMORY_REQUIREMENTS_TYPE_OBJECT_NV (dev 12).memoryRequirements,
    Call.vkAllocateMemory device
      { allocationSize := (dev 12).memoryRequirements.memoryRequirements.size
        memoryTypeIndex := env.GetMemoryType (dev 12).memoryRequirements.memoryRequirements
          VK_MEMORY_PROPERTY_DEVICE_LOCAL_BIT }
      (dev 13).code topASMemory,
    Call.vkBindAccelerationStructureMemoryNV device 1
      { accelerationStructure := topAS, memory := topASMemory, memoryOffset := 0,
        deviceIndexCount := 0 }
      (dev 14).code,
    Call.vkGetAccelerationStructureMemoryRequirementsNV device bottomAS
      VK_ACCELERATION_STRUCTURE_MEMORY_REQUIREMENTS_TYPE_BUILD_SCRATCH_NV
      (dev 15).memoryRequirements,
    Call.vkGetAccelerationStructureMemoryRequirementsNV device topAS
      VK_ACCELERATION_STRUCTURE_MEMORY_REQUIREMENTS_TYPE_BUILD_SCRATCH_NV
      (dev 16).memoryRequirements,
    Call.BufferResource_Create
      (max (dev 15).memoryRequirements.memoryRequirements.size
        (dev 16).memoryRequirements.memoryRequirements.size)
      VK_BUFFER_USAGE_RAY_TRACING_BIT_NV VK_MEMORY_PROPERTY_DEVICE_LOCAL_BIT
      (dev 17).code scratchBuffer,
    Call.vkAllocateCommandBuffers device
      { commandPool := commandPool, level := VK_COMMAND_BUFFER_LEVEL_PRIMARY,
        commandBufferCount := 1 }
      (dev 18).code commandBuffer,
    Call.vkBeginCommandBuffer commandBuffer VK_COMMAND_BUFFER_USAGE_ONE_TIME_SUBMIT_BIT
      (dev 19).code,
    Call.vkCmdBuildAccelerationStructureNV commandBuffer bottomInfo VK_NULL_HANDLE 0 false
      bottomAS VK_NULL_HANDLE scratchBuffer 0,
    Call.vkCmdPipelineBarrier commandBuffer
      VK_PIPELINE_STAGE_ACCELERATION_STRUCTURE_BUILD_BIT_NV
      VK_PIPELINE_STAGE_ACCELERATION_STRUCTURE_BUILD_BIT_NV 0 [memoryBarrier] 0 0,
    Call.vkCmdBuildAccelerationStructureNV commandBuffer topInfo instanceBuffer 0 false
      topAS VK_NULL_HANDLE scratchBuffer 0,
    Call.vkCmdPipelineBarrier commandBuffer
      VK_PIPELINE_STAGE_ACCELERATION_STRUCTURE_BUILD_BIT_NV
      VK_PIPELINE_STAGE_RAY_TRACING_SHADER_BIT_NV 0 [memoryBarrier] 0 0,
    Call.vkEndCommandBuffer commandBuffer (dev 24).code,
    Call.vkQueueSubmit graphicsQueue 1
      { waitSemaphoreCount := 0, commandBufferCount := 1, pCommandBuffers := [commandBuffer],
        signalSemaphoreCount := 0 }
      VK_NULL_HANDLE (dev 25).code,
    Call.vkQueueWaitIdle graphicsQueue (dev 26).code,
    Call.vkFreeCommandBuffers device commandPool [commandBuffer],
    Call.BufferResource_leavesScope scratchBuffer,
    Call.BufferResource_leavesScope instanceBuffer,
    Call.BufferResource_leavesScope indexBuffer,
    Call.BufferResource_leavesScope vertexBuffer ]

/-- The application object when `n` calls have been made. -/
def appAfter (dev : Device) (device commandPool graphicsQueue : Handle) (n : Nat) :
    TutorialApplication :=
  { _device := device, _commandPool := commandPool, _graphicsQueue := graphicsQueue,
    _topASMemory := if 13 < n then (dev 13).handle else VK_NULL_HANDLE,
    _topAS := if 11 < n then (dev 11).handle else VK_NULL_HANDLE,
    _bottomASMemory := if 6 < n then (dev 6).handle else VK_NULL_HANDLE,
    _bottomAS := if 4 < n then (dev 4).handle else VK_NULL_HANDLE }

/-- The first check that fails, if any: how many calls were made by then, and the message. -/
def firstFailure (dev : Device) : Option (Nat × String) :=
  if (dev 0).code ≠ VK_SUCCESS then some (1, "rt vertexBuffer.Create")
  else if (!(dev 1).copied) = true then some (2, "Failed to copy vertex buffer")
  else if (dev 2).code ≠ VK_SUCCESS then some (3, "rt indexBuffer.Create")
  else if (!(dev 3).copied) = true then some (4, "Failed to copy index buffer")
  else if (dev 4).code ≠ VK_SUCCESS then some (5, "vkCreateAccelerationStructureNV")
  else if (dev 6).code ≠ VK_SUCCESS then some (7, "rt AS vkAllocateMemory")
  else if (dev 7).code ≠ VK_SUCCESS then some (8, "vkBindAccelerationStructureMemoryNV")
  else if (dev 8).code ≠ VK_SUCCESS then some (9, "vkGetAccelerationStructureHandleNV")
  else if (dev 9).code ≠ VK_SUCCESS then some (10, "rt instanceBuffer.Create")
  else if (dev 11).code ≠ VK_SUCCESS then some (12, "vkCreateAccelerationStructureNV")
  else if (dev 13).code ≠ VK_SUCCESS then some (14, "rt AS vkAllocateMemory")
  else if (dev 14).code ≠ VK_SUCCESS then some (15, "vkBindAccelerationStructureMemoryNV")
  else if (dev 18).code ≠ VK_SUCCESS then some (19, "rt vkAllocateCommandBuffers")
  else none

/-- The checks of the procedure: the number of the call whose answer is checked, and the
message of the fatal error when the check fails. -/
def checks : List (Nat × String) :=
  [ (0, "rt vertexBuffer.Create"),
    (1, "Failed to copy vertex buffer"),
    (2, "rt indexBuffer.Create"),
    (3, "Failed to copy index buffer"),
    (4, "vkCreateAccelerationStructureNV"),
    (6, "rt AS vkAllocateMemory"),
    (7, "vkBindAccelerationStructureMemoryNV"),
    (8, "vkGetAccelerationStructureHandleNV"),
    (9, "rt instanceBuffer.Create"),
    (11, "vkCreateAccelerationStructureNV"),
    (13, "rt AS vkAllocateMemory"),
    (14, "vkBindAccelerationStructureMemoryNV"),
    (18, "rt vkAllocateCommandBuffers") ]

/-- The check on call `k` passes: calls 1 and 3 are copies, checked on their flag; the others
are checked on their status code. -/
def passes (dev : Device) (k : Nat) : Prop :=
  if k = 1 ∨ k = 3 then (dev k).copied = true else (dev k).code = VK_SUCCESS

/-- All checks on calls before call `n` pass. -/
def Passed (dev : Device) (n : Nat) : Prop :=
  ∀ km ∈ checks, km.1 < n → passes dev km.1

/-- The straight line, cut where a check failed. -/
def cutAt (env : Env) (dev : Device) (device commandPool graphicsQueue : Handle) :
    Option (Nat × String) → Step Unit
  | some (n, m) =>
      Step.exit m ⟨(straightLine env dev device commandPool graphicsQueue).take n,
        appAfter dev device commandPool graphicsQueue n⟩
  | none =>
      Step.ok () ⟨straightLine env dev device commandPool graphicsQueue,
        appAfter dev device commandPool graphicsQueue 32⟩

/-! ## Reading a trace -/

/-- Every operation of the device succeeds: every status code is `VK_SUCCESS` and every copy
reports success. -/
def AllSucceed (dev : Device) : Prop :=
  ∀ n, (dev n).code = VK_SUCCESS ∧ (dev n).copied = true

def Call.isBegin : Call → Bool
  | Call.vkBeginCommandBuffer _ _ _ => true
  | _ => false

def Call.isEnd : Call → Bool
  | Call.vkEndCommandBuffer _ _ => true
  | _ => false

/-- The call is a build command. -/
def Call.isBuild : Call → Bool
  | Call.vkCmdBuildAccelerationStructureNV _ _ _ _ _ _ _ _ _ => true
  | _ => false

/-- The call records a command (`vkCmd...`) into a command buffer. -/
def Call.isCommand : Call → Bool
  | Call.vkCmdBuildAccelerationStructureNV _ _ _ _ _ _ _ _ _ => true
  | Call.vkCmdPipelineBarrier _ _ _ _ _ _ _ => true
  | _ => false

/-- The calls of a trace after its first `vkBeginCommandBuffer` and before the
`vkEndCommandBuffer` that follows. -/
def recordedCommands (tr : List Call) : List Call :=
  ((tr.dropWhile fun c => !c.isBegin).drop 1).takeWhile fun c => !c.isEnd

/-- The build-scratch requirement queries of a trace: the structure asked about and the size
the device reported. -/
def scratchQueries (tr : List Call) : List (Handle × VkDeviceSize) :=
  tr.filterMap fun c =>
    match c with
    | Call.vkGetAccelerationStructureMemoryRequirementsNV _ as
        VK_ACCELERATION_STRUCTURE_MEMORY_REQUIREMENTS_TYPE_BUILD_SCRATCH_NV r =>
        some (as, r.memoryRequirements.size)
    | _ => none

/-- The buffers a trace creates in device-local memory: requested size and buffer handle. -/
def deviceLocalBuffers (tr : List Call) : List (VkDeviceSize × Handle) :=
  tr.filterMap fun c =>
    match c with
    | Call.BufferResource_Create size _ memoryProperties _ buffer =>
        if memoryProperties = VK_MEMORY_PROPERTY_DEVICE_LOCAL_BIT then some (size, buffer)
        else none
    | _ => none

/-- The build commands of a trace: kind of structure, target structure, instance data, scratch
buffer and scratch offset. -/
def buildCommands (tr : List Call) :
    List (VkAccelerationStructureTypeNV × Handle × Handle × Handle × VkDeviceSize) :=
  tr.filterMap fun c =>
    match c with
    | Call.vkCmdBuildAccelerationStructureNV _ info instanceData _ _ dst _ scratch
        scratchOffset => some (info.type, dst, instanceData, scratch, scratchOffset)
    | _ => none

/-- For a structure-creation, memory-allocation or memory-bind call that did not succeed: the
name of the operation. -/
def Call.failedOperation : Call → Option String
  | Call.vkCreateAccelerationStructureNV _ _ code _ =>
      if code ≠ VK_SUCCESS then some "vkCreateAccelerationStructureNV" else none
  | Call.vkAllocateMemory _ _ code _ =>
      if code ≠ VK_SUCCESS then some "vkAllocateMemory" else none
  | Call.vkBindAccelerationStructureMemoryNV _ _ _ code =>
      if code ≠ VK_SUCCESS then some "vkBindAccelerationStructureMemoryNV" else none
  | _ => none

/-- The message names the operation: the name of the operation occurs in it. -/
def Names (message operation : String) : Prop :=
  operation.toList <:+: message.toList

/-- Call `a` comes before call `b` in the trace. -/
def Precedes (a b : Call) (tr : List Call) : Prop :=
  ∃ i j : Nat, i < j ∧ tr[i]? = some a ∧ tr[j]? = some b

/-- Every `vkDestroyAccelerationStructureNV` call of the trace is before every `vkFreeMemory`
call of the trace. -/
def DestroysBeforeFrees (tr : List Call) : Prop :=
  ∀ (i j : Nat) (d a e m : Handle), tr[i]? = some (Call.vkDestroyAccelerationStructureNV d a) →
    tr[j]? = some (Call.vkFreeMemory e m) → i < j

/-- The handle fields of the application object that are set, among the four the destructor
looks at. -/
def setHandleCount (self : TutorialApplication) : Nat :=
  ([self._topAS, self._topASMemory, self._bottomAS, self._bottomASMemory].filter
    fun h => decide (h ≠ VK_NULL_HANDLE)).length

/-- What a trace has backed with memory so far: the memory objects allocated successfully and
the structures to which such an object was then bound successfully. -/
structure Backing where
  allocated : List Handle
  bound : List Handle

def Backing.step (s : Backing) : Call → Backing
  | Call.vkAllocateMemory _ _ code memory =>
      if code = VK_SUCCESS then { s with allocated := memory :: s.allocated } else s
  | Call.vkBindAccelerationStructureMemoryNV _ _ bindInfo code =>
      if code = VK_SUCCESS ∧ bindInfo.memory ∈ s.allocated then
        { s with bound := bindInfo.accelerationStructure :: s.bound }
      else s
  | _ => s

def backing (tr : List Call) : Backing :=
  tr.foldl Backing.step ⟨[], []⟩

/-- The structures with bound memory after a trace. -/
def boundStructures (tr : List Call) : List Handle :=
  (backing tr).bound

/-- The structures a trace has recorded a build command for. -/
def builtStructures (tr : List Call) : List Handle :=
  tr.filterMap fun c =>
    match c with
    | Call.vkCmdBuildAccelerationStructureNV _ _ _ _ _ dst _ _ _ => some dst
    | _ => none

/-- Walk a trace and check at each build command that its target has bound memory. -/
def buildsBacked (s : Backing) : List Call → Bool
  | [] => true
  | c :: rest =>
      (match c with
        | Call.vkCmdBuildAccelerationStructureNV _ _ _ _ _ dst _ _ _ => decide (dst ∈ s.bound)
        | _ => true) && buildsBacked (s.step c) rest

/-! ## Concrete devices -/

/-- A device on which every operation succeeds, creating object `n + 1` on call `n`. -/
def okDevice : Device := fun n =>
  { code := VK_SUCCESS, handle := n + 1, memoryRequirements := ⟨⟨64 * (n + 1), 16, 1⟩⟩,
    copied := true, data := 1000 + n }

/-- The device `okDevice`, except that call `k` returns the error code `-2`
(`VK_ERROR_OUT_OF_DEVICE_MEMORY`). -/
def failingAt (k : Nat) : Device := fun n =>
  if n = k then { okDevice n with code := -2 } else okDevice n

/-- The device `okDevice`, except that the copy made by call `k` reports failure. -/
def copyFailingAt (k : Nat) : Device := fun n =>
  if n = k then { okDevice n with copied := false } else okDevice n

def testEnv : Env := ⟨64, fun _ _ => 0⟩

/-- An application object with all four handles set. -/
def fullApp : TutorialApplication :=
  { _device := 1, _commandPool := 2, _graphicsQueue := 3, _topASMemory := 12, _topAS := 11,
    _bottomASMemory := 14, _bottomAS := 13 }

/-! ## Lemmas on the program monad and on the flat layout of a run -/

@[simp] theorem Step.andThen_ok {α β : Type} (a : α) (w : World) (k : α → World → Step β) :
    (Step.ok a w).andThen k = k a w := rfl

@[simp] theorem Step.andThen_exit {α β : Type} (m : String) (w : World)
    (k : α → World → Step β) : (Step.exit m w : Step α).andThen k = Step.exit m w := rfl

theorem Step.andThen_ite {α β : Type} (c : Prop) [Decidable c] (s t : Step α)
    (k : α → World → Step β) :
    (if c then s else t).andThen k = if c then s.andThen k else t.andThen k := by
  split <;> rfl

theorem Prog.ite_apply {α : Type} (c : Prop) [Decidable c] (x y : Prog α) (dev : Device)
    (w : World) : (if c then x else y) dev w = if c then x dev w else y dev w := by
  split <;> rfl

set_option maxHeartbeats 1000000 in
/-- A run is the straight line of its calls, cut after the first check that fails. -/
theorem run_eq (env : Env) (dev : Device) (d p q : Handle) :
    run env dev d p q = cutAt env dev d p q (firstFailure dev) := by
  unfold firstFailure
  simp only [run, CreateAccelerationStructures, CreateAccelerationStructure,
    GetScratchBufferSize, bind, Prog.bind, call, getApp, modifyApp, NVVK_CHECK_ERROR, ExitError,
    pure, Prog.pure, List.length_nil, List.length_append, List.length_cons, List.nil_append,
    List.cons_append, List.append_assoc, Step.andThen_ok, Step.andThen_exit, Step.andThen_ite,
    Prog.ite_apply, ASRef.get, ASRef.set, MemoryRef.get, MemoryRef.set,
    Nat.reduceAdd, Nat.reduceMod, Nat.reduceMul, Nat.reducePow]
  by_cases h0 : (dev 0).code ≠ VK_SUCCESS
  · rw [if_pos h0, if_pos h0]; rfl
  rw [if_neg h0, if_neg h0]
  by_cases h1 : (!(dev 1).copied) = true
  · rw [if_pos h1, if_pos h1]; rfl
  rw [if_neg h1, if_neg h1]
  by_cases h2 : (dev 2).code ≠ VK_SUCCESS
  · rw [if_pos h2, if_pos h2]; rfl
  rw [if_neg h2, if_neg h2]
  by_cases h3 : (!(dev 3).copied) = true
  · rw [if_pos h3, if_pos h3]; rfl
  rw [if_neg h3, if_neg h3]
  by_cases h4 : (dev 4).code ≠ VK_SUCCESS
  · rw [if_pos h4, if_pos h4]; rfl
  rw [if_neg h4, if_neg h4]
  by_cases h5 : (dev 6).code ≠ VK_SUCCESS
  · rw [if_pos h5, if_pos h5]; rfl
  rw [if_neg h5, if_neg h5]
  by_cases h6 : (dev 7).code ≠ VK_SUCCESS
  · rw [if_pos h6, if_pos h6]; rfl
  rw [if_neg h6, if_neg h6]
  by_cases h7 : (dev 8).code ≠ VK_SUCCESS
  · rw [if_pos h7, if_pos h7]; rfl
  rw [if_neg h7, if_neg h7]
  by_cases h8 : (dev 9).code ≠ VK_SUCCESS
  · rw [if_pos h8, if_pos h8]; rfl
  rw [if_neg h8, if_neg h8]
  by_cases h9 : (dev 11).code ≠ VK_SUCCESS
  · rw [if_pos h9, if_pos h9]; rfl
  rw [if_neg h9, if_neg h9]
  by_cases h10 : (dev 13).code ≠ VK_SUCCESS
  · rw [if_pos h10, if_pos h10]; rfl
  rw [if_neg h10, if_neg h10]
  by_cases h11 : (dev 14).code ≠ VK_SUCCESS
  · rw [if_pos h11, if_pos h11]; rfl
  rw [if_neg h11, if_neg h11]
  by_cases h12 : (dev 18).code ≠ VK_SUCCESS
  · rw [if_pos h12, if_pos h12]; rfl
  rw [if_neg h12, if_neg h12]
  rfl

/-- On a device whose every answer is a success no check fails. -/
theorem firstFailure_of_allSucceed (dev : Device) (h : AllSucceed dev) :
    firstFailure dev = none := by
  simp [firstFailure, (h _).1, (h _).2]

/-- A run returns exactly when no check fails. -/
theorem exitMessage_eq_none_iff (env : Env) (dev : Device) (d p q : Handle) :
    (run env dev d p q).exitMessage = none ↔ firstFailure dev = none := by
  rw [run_eq]
  cases hf : firstFailure dev with
  | none => simp [cutAt, Step.exitMessage]
  | some nm => simp [cutAt, Step.exitMessage]

/-- A run in which no check fails makes all 32 calls of the straight line. -/
theorem run_of_firstFailure_eq_none (env : Env) (dev : Device) (d p q : Handle)
    (h : firstFailure dev = none) :
    run env dev d p q = Step.ok () ⟨straightLine env dev d p q, appAfter dev d p q 32⟩ := by
  rw [run_eq, h]
  rfl

theorem okDevice_allSucceed : AllSucceed okDevice := fun _ => ⟨rfl, rfl⟩

/-- The first failure is the first check of the table that does not pass. -/
theorem firstFailure_spec (dev : Device) :
    (firstFailure dev = none ∧ Passed dev 32) ∨
    ∃ k m, (k, m) ∈ checks ∧ firstFailure dev = some (k + 1, m) ∧ Passed dev k ∧
      ¬ passes dev k := by
  unfold firstFailure
  by_cases h0 : (dev 0).code ≠ VK_SUCCESS
  · exact Or.inr ⟨0, "rt vertexBuffer.Create", by simp [checks], by rw [if_pos h0],
      by simp_all [Passed, checks, passes], by simpa [passes] using h0⟩
  rw [if_neg h0]
  by_cases h1 : (!(dev 1).copied) = true
  · exact Or.inr ⟨1, "Failed to copy vertex buffer", by simp [checks], by rw [if_pos h1],
      by simp_all [Passed, checks, passes], by simpa [passes] using h1⟩
  rw [if_neg h1]
  by_cases h2 : (dev 2).code ≠ VK_SUCCESS
  · exact Or.inr ⟨2, "rt indexBuffer.Create", by simp [checks], by rw [if_pos h2],
      by simp_all [Passed, checks, passes], by simpa [passes] using h2⟩
  rw [if_neg h2]
  by_cases h3 : (!(dev 3).copied) = true
  · exact Or.inr ⟨3, "Failed to copy index buffer", by simp [checks], by rw [if_pos h3],
      by simp_all [Passed, checks, passes], by simpa [passes] using h3⟩
  rw [if_neg h3]
  by_cases h4 : (dev 4).code ≠ VK_SUCCESS
  · exact Or.inr ⟨4, "vkCreateAccelerationStructureNV", by simp [checks], by rw [if_pos h4],
      by simp_all [Passed, checks, passes], by simpa [passes] using h4⟩
  rw [if_neg h4]
  by_cases h5 : (dev 6).code ≠ VK_SUCCESS
  · exact Or.inr ⟨6, "rt AS vkAllocateMemory", by simp [checks], by rw [if_pos h5],
      by simp_all [Passed, checks, passes], by simpa [passes] using h5⟩
  rw [if_neg h5]
  by_cases h6 : (dev 7).code ≠ VK_SUCCESS
  · exact Or.inr ⟨7, "vkBindAccelerationStructureMemoryNV", by simp [checks], by rw [if_pos h6],
      by simp_all [Passed, checks, passes], by simpa [passes] using h6⟩
  rw [if_neg h6]
  by_cases h7 : (dev 8).code ≠ VK_SUCCESS
  · exact Or.inr ⟨8, "vkGetAccelerationStructureHandleNV", by simp [checks], by rw [if_pos h7],
      by simp_all [Passed, checks, passes], by simpa [passes] using h7⟩
  rw [if_neg h7]
  by_cases h8 : (dev 9).code ≠ VK_SUCCESS
  · exact Or.inr ⟨9, "rt instanceBuffer.Create", by simp [checks], by rw [if_pos h8],
      by simp_all [Passed, checks, passes], by simpa [passes] using h8⟩
  rw [if_neg h8]
  by_cases h9 : (dev 11).code ≠ VK_SUCCESS
  · exact Or.inr ⟨11, "vkCreateAccelerationStructureNV", by simp [checks], by rw [if_pos h9],
      by simp_all [Passed, checks, passes], by simpa [passes] using h9⟩
  rw [if_neg h9]
  by_cases h10 : (dev 13).code ≠ VK_SUCCESS
  · exact Or.inr ⟨13, "rt AS vkAllocateMemory", by simp [checks], by rw [if_pos h10],
      by simp_all [Passed, checks, passes], by simpa [passes] using h10⟩
  rw [if_neg h10]
  by_cases h11 : (dev 14).code ≠ VK_SUCCESS
  · exact Or.inr ⟨14, "vkBindAccelerationStructureMemoryNV", by simp [checks], by rw [if_pos h11],
      by simp_all [Passed, checks, passes], by simpa [passes] using h11⟩
  rw [if_neg h11]
  by_cases h12 : (dev 18).code ≠ VK_SUCCESS
  · exact Or.inr ⟨18, "rt vkAllocateCommandBuffers", by simp [checks], by rw [if_pos h12],
      by simp_all [Passed, checks, passes], by simpa [passes] using h12⟩
  rw [if_neg h12]
  exact Or.inl ⟨rfl, by simp_all [Passed, checks, passes]⟩

theorem checks_lt (k : Nat) (m : String) (h : (k, m) ∈ checks) : k < 19 := by
  simp only [checks, List.mem_cons, List.mem_singleton, List.not_mem_nil, or_false,
    Prod.mk.injEq] at h
  omega

theorem straightLine_length (env : Env) (dev : Device) (d p q : Handle) :
    (straightLine env dev d p q).length = 32 := rfl

/-- No build command is among the first 20 calls of the straight line. -/
theorem no_build_in_take (env : Env) (dev : Device) (d p q : Handle) (n : Nat) (hn : n ≤ 20) :
    ∀ e ∈ (straightLine env dev d p q).take n, e.isBuild = false := by
  intro e he
  have h20 : ∀ e ∈ (straightLine env dev d p q).take 20, e.isBuild = false := by
    simp [straightLine, Call.isBuild]
  exact h20 e (List.take_subset_take_left _ hn he)

theorem getLast?_take_straightLine (env : Env) (dev : Device) (d p q : Handle) (k : Nat)
    (hk : k < 32) :
    ((straightLine env dev d p q).take (k + 1)).getLast? = (straightLine env dev d p q)[k]? := by
  rw [List.getLast?_eq_getElem?, List.length_take, straightLine_length,
    List.getElem?_take_of_lt (by omega)]
  congr 1
  omega

/-! ### Backing of structures along a trace -/

theorem Backing.step_bound_subset (s : Backing) (c : Call) : s.bound ⊆ (s.step c).bound := by
  cases c <;> simp only [Backing.step] <;> try exact List.Subset.refl _
  all_goals split <;> simp

theorem foldl_step_bound_subset (tr : List Call) (s : Backing) :
    s.bound ⊆ (tr.foldl Backing.step s).bound := by
  induction tr generalizing s with
  | nil => exact List.Subset.refl _
  | cons c rest ih =>
    exact List.Subset.trans (Backing.step_bound_subset s c) (ih (s.step c))

theorem builtStructures_cons (c : Call) (tr : List Call) :
    builtStructures (c :: tr) = builtStructures [c] ++ builtStructures tr := by
  cases c <;> simp [builtStructures, List.filterMap_cons]

/-- When the walk finds every build backed, every prefix of the trace has built only
structures with bound memory. -/
theorem buildsBacked_sound (tr : List Call) :
    ∀ s : Backing, buildsBacked s tr = true →
      ∀ p, p <+: tr → ∀ S ∈ builtStructures p, S ∈ (p.foldl Backing.step s).bound := by
  induction tr with
  | nil =>
    intro s _ p hp S hS
    rw [List.prefix_nil] at hp
    subst hp
    simp [builtStructures] at hS
  | cons c rest ih =>
    intro s h p hp S hS
    cases p with
    | nil => simp [builtStructures] at hS
    | cons c1 p1 =>
      obtain ⟨rfl, hp1⟩ := List.cons_prefix_cons.1 hp
      simp only [buildsBacked, Bool.and_eq_true] at h
      rw [builtStructures_cons, List.mem_append] at hS
      rw [List.foldl_cons]
      rcases hS with hS | hS
      · apply foldl_step_bound_subset
        apply Backing.step_bound_subset
        cases c1 <;> simp [builtStructures] at hS
        subst hS
        simpa using h.1
      · exact ih _ h.2 p1 hp1 S hS

theorem buildsBacked_of_no_build (tr : List Call) :
    ∀ s : Backing, (∀ e ∈ tr, e.isBuild = false) → buildsBacked s tr = true := by
  induction tr with
  | nil => intro s _; rfl
  | cons c rest ih =>
    intro s h
    simp only [buildsBacked, Bool.and_eq_true]
    refine ⟨?_, ih _ fun e he => h e (List.mem_cons_of_mem _ he)⟩
    have hc := h c (List.mem_cons_self _ _)
    clear h ih
    cases c <;> first | rfl | exact absurd hc (by simp [Call.isBuild])

theorem Backing.mem_step_bound (s : Backing) (e : Call) (S : Handle)
    (h : S ∈ (s.step e).bound) :
    S ∈ s.bound ∨ ∃ dv n bi, e = Call.vkBindAccelerationStructureMemoryNV dv n bi VK_SUCCESS ∧
      bi.accelerationStructure = S ∧ bi.memory ∈ s.allocated := by
  cases e <;> simp only [Backing.step] at h <;> try exact Or.inl h
  · split at h
    · exact Or.inl h
    · exact Or.inl h
  · rename_i dv n bi code
    split at h
    · rename_i hc
      rcases List.mem_cons.1 h with h1 | h1
      · exact Or.inr ⟨dv, n, bi, by rw [hc.1], h1.symm, hc.2⟩
      · exact Or.inl h1
    · exact Or.inl h

theorem Backing.mem_step_allocated (s : Backing) (e : Call) (m : Handle)
    (h : m ∈ (s.step e).allocated) :
    m ∈ s.allocated ∨ ∃ dv ai, e = Call.vkAllocateMemory dv ai VK_SUCCESS m := by
  cases e <;> simp only [Backing.step] at h <;> try exact Or.inl h
  · rename_i dv ai code mem
    split at h
    · rename_i hc
      rcases List.mem_cons.1 h with h1 | h1
      · exact Or.inr ⟨dv, ai, by rw [hc, h1]⟩
      · exact Or.inl h1
    · exact Or.inl h
  · split at h
    · exact Or.inl h
    · exact Or.inl h

/-- A structure counted as bound after a trace was bound by a successful bind call of the
trace, to memory that a successful allocation call earlier in the trace had allocated. -/
theorem mem_foldl_step_bound (tr : List Call) :
    ∀ (s : Backing) (S : Handle), S ∈ (tr.foldl Backing.step s).bound →
      S ∈ s.bound ∨
      ∃ a c dv n bi, tr = a ++ Call.vkBindAccelerationStructureMemoryNV dv n bi VK_SUCCESS :: c ∧
        bi.accelerationStructure = S ∧
        (bi.memory ∈ s.allocated ∨
          ∃ a1 a2 dv1 ai, a = a1 ++ Call.vkAllocateMemory dv1 ai VK_SUCCESS bi.memory :: a2) := by
  induction tr with
  | nil => intro s S h; exact Or.inl h
  | cons e rest ih =>
    intro s S h
    rw [List.foldl_cons] at h
    rcases ih (s.step e) S h with h1 | ⟨a, c, dv, n, bi, hrest, hS, hm⟩
    · rcases Backing.mem_step_bound s e S h1 with h2 | ⟨dv, n, bi, he, hS, hm⟩
      · exact Or.inl h2
      · exact Or.inr ⟨[], rest, dv, n, bi, by rw [he]; rfl, hS, Or.inl hm⟩
    · right
      refine ⟨e :: a, c, dv, n, bi, by rw [hrest]; rfl, hS, ?_⟩
      rcases hm with hm | ⟨a1, a2, dv1, ai, ha⟩
      · rcases Backing.mem_step_allocated s e bi.memory hm with h3 | ⟨dv1, ai, he⟩
        · exact Or.inl h3
        · exact Or.inr ⟨[], a, dv1, ai, by rw [he]; rfl⟩
      · exact Or.inr ⟨e :: a1, a2, dv1, ai, by rw [ha]; rfl⟩

/-- Membership in `boundStructures`, spelled out on the trace. -/
theorem mem_boundStructures (tr : List Call) (S : Handle) (h : S ∈ boundStructures tr) :
    ∃ a1 a2 c dv1 ai dv n bi,
      tr = a1 ++ Call.vkAllocateMemory dv1 ai VK_SUCCESS bi.memory :: a2 ++
        Call.vkBindAccelerationStructureMemoryNV dv n bi VK_SUCCESS :: c ∧
      bi.accelerationStructure = S := by
  rcases mem_foldl_step_bound tr ⟨[], []⟩ S h with h1 | ⟨a, c, dv, n, bi, htr, hS, hm⟩
  · simp at h1
  · rcases hm with hm | ⟨a1, a2, dv1, ai, ha⟩
    · simp at hm
    · exact ⟨a1, a2, c, dv1, ai, dv, n, bi, by rw [htr, ha], hS⟩

theorem Passed.mono (dev : Device) (m n : Nat) (hmn : m ≤ n) (h : Passed dev n) :
    Passed dev m :=
  fun km hkm hlt => h km hkm (Nat.lt_of_lt_of_le hlt hmn)

theorem take_eq_take_append_cons {α : Type} (l : List α) (n i : Nat) (hi : i < n)
    (hl : i < l.length) :
    l.take n = l.take i ++ l[i] :: (l.take n).drop (i + 1) := by
  have hlen : i < (l.take n).length := by
    rw [List.length_take]
    omega
  have h1 := (List.take_append_drop i (l.take n)).symm
  rw [List.take_take, Nat.min_eq_left (Nat.le_of_lt hi), List.drop_eq_getElem_cons hlen,
    List.getElem_take] at h1
  exact h1

/-- The handle query of a run is call 8 of the straight line. -/
theorem handle_query_is_call_8 (env : Env) (dev : Device) (d p q : Handle) (n : Nat)
    (dv as : Handle) (size : Nat) (code : VkResult) (h : Nat)
    (hq : Call.vkGetAccelerationStructureHandleNV dv as size code h ∈
      (straightLine env dev d p q).take n) :
    8 < n ∧ Call.vkGetAccelerationStructureHandleNV dv as size code h =
      Call.vkGetAccelerationStructureHandleNV d (dev 4).handle 8 (dev 8).code
        ((dev 8).data % 2 ^ 64) := by
  constructor
  · by_contra hle
    have hsub := List.take_subset_take_left (straightLine env dev d p q)
      (Nat.le_of_not_lt hle) hq
    simp only [straightLine, List.take_succ_cons, List.take_zero, List.mem_cons,
      List.mem_singleton, List.not_mem_nil, reduceCtorEq, or_false] at hsub
  · have hsl := List.mem_of_mem_take hq
    simp only [straightLine, List.mem_cons, List.mem_singleton, List.not_mem_nil,
      reduceCtorEq, or_false, false_or] at hsl
    exact hsl

/-- The trace of a run is the straight line cut at some length `n`: at most 19 when a check
failed, with all checks before call `n - 1` passed, or 32 with all checks passed. -/
theorem run_trace_eq_take (env : Env) (dev : Device) (d p q : Handle) :
    ∃ n, (run env dev d p q).trace = (straightLine env dev d p q).take n ∧
      Passed dev (n - 1) ∧
      ((n ≤ 19 ∧ (run env dev d p q).exitMessage ≠ none) ∨
        (n = 32 ∧ (run env dev d p q).exitMessage = none)) := by
  rw [run_eq]
  rcases firstFailure_spec dev with ⟨hf, hp⟩ | ⟨k, m, hkm, hf, hp, -⟩
  · rw [hf]
    exact ⟨32, rfl, Passed.mono dev 31 32 (by omega) hp, Or.inr ⟨rfl, rfl⟩⟩
  · rw [hf]
    have hk := checks_lt k m hkm
    exact ⟨k + 1, rfl, hp, Or.inl ⟨by omega, by simp [cutAt, Step.exitMessage]⟩⟩

/-! ## The claims -/

/-- C7: for every state of the four handles `_topAS`, `_topASMemory`, `_bottomAS`,
`_bottomASMemory` (so for each of the 16 combinations of set and unset), the calls of the
destructor are exactly the release calls of the handles that are set: a call is made if and
only if it is the destroy-structure call of a set structure handle or the free-memory call of a
set memory handle; there are as many calls as set handles, and no call is repeated when the two
structures and the two memory objects are different objects, so each set handle is released
exactly once.  In particular, when only `_bottomAS` and `_bottomASMemory` are set the calls are
the destruction of the bottom-level structure and the freeing of its memory, and when no handle
is set there is no call. -/
theorem destructor_releases_exactly_the_set_handles (self : TutorialApplication) :
    (∀ c, c ∈ destructor self ↔
      (c = Call.vkDestroyAccelerationStructureNV self._device self._topAS ∧
        self._topAS ≠ VK_NULL_HANDLE) ∨
      (c = Call.vkFreeMemory self._device self._topASMemory ∧
        self._topASMemory ≠ VK_NULL_HANDLE) ∨
      (c = Call.vkDestroyAccelerationStructureNV self._device self._bottomAS ∧
        self._bottomAS ≠ VK_NULL_HANDLE) ∨
      (c = Call.vkFreeMemory self._device self._bottomASMemory ∧
        self._bottomASMemory ≠ VK_NULL_HANDLE)) ∧
    (destructor self).length = setHandleCount self ∧
    ((self._topAS = self._bottomAS → self._topAS = VK_NULL_HANDLE) →
      (self._topASMemory = self._bottomASMemory → self._topASMemory = VK_NULL_HANDLE) →
      (destructor self).Nodup) ∧
    (self._topAS = VK_NULL_HANDLE → self._topASMemory = VK_NULL_HANDLE →
      self._bottomAS ≠ VK_NULL_HANDLE → self._bottomASMemory ≠ VK_NULL_HANDLE →
      destructor self =
        [Call.vkDestroyAccelerationStructureNV self._device self._bottomAS,
         Call.vkFreeMemory self._device self._bottomASMemory]) ∧
    (self._topAS = VK_NULL_HANDLE → self._topASMemory = VK_NULL_HANDLE →
      self._bottomAS = VK_NULL_HANDLE → self._bottomASMemory = VK_NULL_HANDLE →
      destructor self = []) := by
  rcases self with ⟨d, p, q, tm, t, bm, b⟩
  by_cases h1 : t = 0 <;> by_cases h2 : tm = 0 <;> by_cases h3 : b = 0 <;>
    by_cases h4 : bm = 0 <;>
    simp [destructor, setHandleCount, VK_NULL_HANDLE, h1, h2, h3, h4]
  intro a b
  exact ⟨a, b⟩

/-- C8, as stated, fails: with all four handles set, the memory of the top-level structure is
freed (second call) before the bottom-level structure is destroyed (third call). -/
theorem destructor_frees_top_memory_before_destroying_bottom :
    ¬ DestroysBeforeFrees (destructor fullApp) := by
  intro h
  have h21 := h 2 1 1 13 1 12 (by decide) (by decide)
  omega

/-- C8, amended: for every state of the four handles, each structure is destroyed before its
own memory is freed: when `_topAS` and `_topASMemory` are set the destruction of `_topAS` comes
before the freeing of `_topASMemory`, and when `_bottomAS` and `_bottomASMemory` are set the
destruction of `_bottomAS` comes before the freeing of `_bottomASMemory`.  The calls keep the
order of the source (top structure, top memory, bottom structure, bottom memory), so when
`_topASMemory` and `_bottomAS` are set the top memory is freed before the bottom structure is
destroyed. -/
theorem destructor_destroys_each_structure_before_its_memory (self : TutorialApplication) :
    (self._topAS ≠ VK_NULL_HANDLE → self._topASMemory ≠ VK_NULL_HANDLE →
      Precedes (Call.vkDestroyAccelerationStructureNV self._device self._topAS)
        (Call.vkFreeMemory self._device self._topASMemory) (destructor self)) ∧
    (self._bottomAS ≠ VK_NULL_HANDLE → self._bottomASMemory ≠ VK_NULL_HANDLE →
      Precedes (Call.vkDestroyAccelerationStructureNV self._device self._bottomAS)
        (Call.vkFreeMemory self._device self._bottomASMemory) (destructor self)) ∧
    (self._topASMemory ≠ VK_NULL_HANDLE → self._bottomAS ≠ VK_NULL_HANDLE →
      Precedes (Call.vkFreeMemory self._device self._topASMemory)
        (Call.vkDestroyAccelerationStructureNV self._device self._bottomAS)
        (destructor self)) ∧
    List.Sublist (destructor self)
      [Call.vkDestroyAccelerationStructureNV self._device self._topAS,
       Call.vkFreeMemory self._device self._topASMemory,
       Call.vkDestroyAccelerationStructureNV self._device self._bottomAS,
       Call.vkFreeMemory self._device self._bottomASMemory] := by
  rcases self with ⟨d, p, q, tm, t, bm, b⟩
  refine ⟨?_, ?_, ?_, ?_⟩
  · intro h1 h2
    by_cases h3 : b = 0 <;> by_cases h4 : bm = 0 <;>
      (refine ⟨0, 1, by omega, ?_, ?_⟩ <;> simp_all [destructor, VK_NULL_HANDLE])
  · intro h3 h4
    by_cases h1 : t = 0 <;> by_cases h2 : tm = 0
    · refine ⟨0, 1, by omega, ?_, ?_⟩ <;> simp_all [destructor, VK_NULL_HANDLE]
    · refine ⟨1, 2, by omega, ?_, ?_⟩ <;> simp_all [destructor, VK_NULL_HANDLE]
    · refine ⟨1, 2, by omega, ?_, ?_⟩ <;> simp_all [destructor, VK_NULL_HANDLE]
    · refine ⟨2, 3, by omega, ?_, ?_⟩ <;> simp_all [destructor, VK_NULL_HANDLE]
  · intro h2 h3
    by_cases h1 : t = 0 <;> by_cases h4 : bm = 0
    · refine ⟨0, 1, by omega, ?_, ?_⟩ <;> simp_all [destructor, VK_NULL_HANDLE]
    · refine ⟨0, 1, by omega, ?_, ?_⟩ <;> simp_all [destructor, VK_NULL_HANDLE]
    · refine ⟨1, 2, by omega, ?_, ?_⟩ <;> simp_all [destructor, VK_NULL_HANDLE]
    · refine ⟨1, 2, by omega, ?_, ?_⟩ <;> simp_all [destructor, VK_NULL_HANDLE]
  · by_cases h1 : t = 0 <;> by_cases h2 : tm = 0 <;> by_cases h3 : b = 0 <;>
      by_cases h4 : bm = 0 <;>
      simp [destructor, VK_NULL_HANDLE, h1, h2, h3, h4]

/-- The amended C8 at an application object with all four handles set. -/
theorem destructor_destroys_each_structure_before_its_memory_witness :
    Precedes (Call.vkDestroyAccelerationStructureNV 1 11) (Call.vkFreeMemory 1 12)
        (destructor fullApp) ∧
      Precedes (Call.vkDestroyAccelerationStructureNV 1 13) (Call.vkFreeMemory 1 14)
        (destructor fullApp) :=
  ⟨(destructor_destroys_each_structure_before_its_memory fullApp).1 (by decide) (by decide),
   (destructor_destroys_each_structure_before_its_memory fullApp).2.1 (by decide) (by decide)⟩

/-- C4: for every structure kind, geometry list and instance count, and whichever pair of
handle fields the caller passes, when the device calls succeed the helper
`CreateAccelerationStructure` returns, and the calls it adds to the trace are exactly, in this
order: create the structure (with the given kind, geometries and instance count), query the
object memory requirement of the structure just created, allocate memory of the size the
device reported, of the memory type chosen by `GetMemoryType` with the device-local property,
and bind the structure just created to the memory just allocated at offset 0.  On return the
two output handles of the caller hold the created structure and the allocated memory. -/
theorem CreateAccelerationStructure_creates_queries_allocates_binds (env : Env)
    (type : VkAccelerationStructureTypeNV) (geometryCount : Nat)
    (geometries : Option (List VkGeometryNV)) (instanceCount : Nat) (AS : ASRef)
    (memory : MemoryRef) (dev : Device) (w : World)
    (hok : ∀ n, (dev n).code = VK_SUCCESS) :
    ∃ (structure_ memory_ : Handle) (reported : VkMemoryRequirements2) (w1 : World),
      CreateAccelerationStructure env type geometryCount geometries instanceCount AS memory
          dev w = Step.ok () w1 ∧
      w1.trace = w.trace ++
        [ Call.vkCreateAccelerationStructureNV w.app._device
            { compactedSize := 0
              info := { type := type, flags := 0, instanceCount := instanceCount,
                        geometryCount := geometryCount, pGeometries := geometries } }
            VK_SUCCESS structure_,
          Call.vkGetAccelerationStructureMemoryRequirementsNV w.app._device structure_
            VK_ACCELERATION_STRUCTURE_MEMORY_REQUIREMENTS_TYPE_OBJECT_NV reported,
          Call.vkAllocateMemory w.app._device
            { allocationSize := reported.memoryRequirements.size
              memoryTypeIndex := env.GetMemoryType reported.memoryRequirements
                VK_MEMORY_PROPERTY_DEVICE_LOCAL_BIT }
            VK_SUCCESS memory_,
          Call.vkBindAccelerationStructureMemoryNV w.app._device 1
            { accelerationStructure := structure_, memory := memory_, memoryOffset := 0,
              deviceIndexCount := 0 }
            VK_SUCCESS ] ∧
      AS.get w1.app = structure_ ∧ memory.get w1.app = memory_ ∧
      structure_ = (dev w.trace.length).handle ∧
      reported = (dev (w.trace.length + 1)).memoryRequirements ∧
      memory_ = (dev (w.trace.length + 2)).handle := by
  refine ⟨(dev w.trace.length).handle, (dev (w.trace.length + 2)).handle,
    (dev (w.trace.length + 1)).memoryRequirements, ?_⟩
  cases AS <;> cases memory <;>
    simp [CreateAccelerationStructure, bind, Prog.bind, call, getApp, modifyApp,
      NVVK_CHECK_ERROR, Prog.pure, hok, ASRef.get, ASRef.set, MemoryRef.get, MemoryRef.set]

/-- C4 for a bottom-level structure, from a state with four calls already made, on the device
`okDevice`: the structure is object 5, the memory object 7. -/
theorem CreateAccelerationStructure_creates_queries_allocates_binds_witness :
    (∀ n, (okDevice n).code = VK_SUCCESS) ∧
      ∃ (structure_ memory_ : Handle) (reported : VkMemoryRequirements2) (w1 : World),
        CreateAccelerationStructure testEnv VK_ACCELERATION_STRUCTURE_TYPE_BOTTOM_LEVEL_NV 0
            (some []) 0 ASRef._bottomAS MemoryRef._bottomASMemory okDevice
            ⟨[Call.vkQueueWaitIdle 0 0, Call.vkQueueWaitIdle 0 0, Call.vkQueueWaitIdle 0 0,
              Call.vkQueueWaitIdle 0 0], fullApp⟩ = Step.ok () w1 ∧
        w1.trace.length = 8 ∧
        w1.app._bottomAS = structure_ ∧ w1.app._bottomASMemory = memory_ ∧
        structure_ = 5 ∧ reported = ⟨⟨384, 16, 1⟩⟩ ∧ memory_ = 7 := by
  refine ⟨fun _ => rfl, ?_⟩
  obtain ⟨s, m, r, w1, h1, h2, h3, h4, h5, h6, h7⟩ :=
    CreateAccelerationStructure_creates_queries_allocates_binds testEnv
      VK_ACCELERATION_STRUCTURE_TYPE_BOTTOM_LEVEL_NV 0 (some []) 0 ASRef._bottomAS
      MemoryRef._bottomASMemory okDevice
      ⟨[Call.vkQueueWaitIdle 0 0, Call.vkQueueWaitIdle 0 0, Call.vkQueueWaitIdle 0 0,
        Call.vkQueueWaitIdle 0 0], fullApp⟩ (fun _ => rfl)
  refine ⟨s, m, r, w1, h1, ?_, h3, h4, ?_, ?_, ?_⟩
  · simp [h2]
  · simp [h5, okDevice]
  · simp [h6, okDevice]
  · simp [h7, okDevice]

/-- C1: for every run of `CreateAccelerationStructures` in which all device calls succeed, the
calls recorded between `vkBeginCommandBuffer` and `vkEndCommandBuffer` are exactly, in this
order: the build of the bottom-level structure `_bottomAS`, a pipeline barrier from stage
acceleration-structure build to stage acceleration-structure build, the build of the top-level
structure `_topAS`, and a pipeline barrier from stage acceleration-structure build to stage
ray-tracing shader, all into the same command buffer.  These four are also all the commands
the whole trace records, so none is recorded outside the recording and the top-level build is
not recorded before the first barrier. -/
theorem CreateAccelerationStructures_records_build_barrier_build_barrier (env : Env)
    (dev : Device) (device commandPool graphicsQueue : Handle) (hok : AllSucceed dev) :
    ∃ (commandBuffer scratchBuffer instanceBuffer : Handle) (geometries : List VkGeometryNV)
      (memoryBarrier : VkMemoryBarrier),
      recordedCommands (run env dev device commandPool graphicsQueue).trace =
        [ Call.vkCmdBuildAccelerationStructureNV commandBuffer
            { type := VK_ACCELERATION_STRUCTURE_TYPE_BOTTOM_LEVEL_NV, flags := 0,
              instanceCount := 0, geometryCount := 1, pGeometries := some geometries }
            VK_NULL_HANDLE 0 false
            (run env dev device commandPool graphicsQueue).app._bottomAS
            VK_NULL_HANDLE scratchBuffer 0,
          Call.vkCmdPipelineBarrier commandBuffer
            VK_PIPELINE_STAGE_ACCELERATION_STRUCTURE_BUILD_BIT_NV
            VK_PIPELINE_STAGE_ACCELERATION_STRUCTURE_BUILD_BIT_NV 0 [memoryBarrier] 0 0,
          Call.vkCmdBuildAccelerationStructureNV commandBuffer
            { type := VK_ACCELERATION_STRUCTURE_TYPE_TOP_LEVEL_NV, flags := 0,
              instanceCount := 1, geometryCount := 0, pGeometries := none }
            instanceBuffer 0 false
            (run env dev device commandPool graphicsQueue).app._topAS
            VK_NULL_HANDLE scratchBuffer 0,
          Call.vkCmdPipelineBarrier commandBuffer
            VK_PIPELINE_STAGE_ACCELERATION_STRUCTURE_BUILD_BIT_NV
            VK_PIPELINE_STAGE_RAY_TRACING_SHADER_BIT_NV 0 [memoryBarrier] 0 0 ] ∧
      (run env dev device commandPool graphicsQueue).trace.filter Call.isCommand =
        recordedCommands (run env dev device commandPool graphicsQueue).trace ∧
      (run env dev device commandPool graphicsQueue).exitMessage = none := by
  rw [run_of_firstFailure_eq_none env dev device commandPool graphicsQueue
    (firstFailure_of_allSucceed dev hok)]
  exact ⟨_, _, _, _, _, rfl, rfl, rfl⟩

/-- C1 on the device `okDevice`: two builds, each followed by a barrier. -/
theorem CreateAccelerationStructures_records_build_barrier_build_barrier_witness :
    AllSucceed okDevice ∧
      (recordedCommands (run testEnv okDevice 100 200 300).trace).map Call.isBuild =
        [true, false, true, false] := by
  refine ⟨okDevice_allSucceed, ?_⟩
  obtain ⟨_, _, _, _, _, h, _⟩ :=
    CreateAccelerationStructures_records_build_barrier_build_barrier testEnv okDevice 100 200
      300 okDevice_allSucceed
  rw [h]
  rfl

/-- C2: in every run of `CreateAccelerationStructures` that is not stopped by an error, the
device is asked for the build-scratch requirement of `_bottomAS` and then of `_topAS`; for the
sizes `b` and `t` it reports, exactly one buffer is created in device-local memory, its
requested size is `max b t` (which is at least `b`, at least `t`, and equal to one of them),
and the two build commands, bottom-level then top-level, both take that buffer as scratch
buffer at offset 0. -/
theorem CreateAccelerationStructures_scratch_buffer_has_the_larger_size (env : Env)
    (dev : Device) (device commandPool graphicsQueue : Handle)
    (hret : (run env dev device commandPool graphicsQueue).exitMessage = none) :
    ∃ (b t : VkDeviceSize) (scratchBuffer instanceBuffer : Handle),
      scratchQueries (run env dev device commandPool graphicsQueue).trace =
        [ ((run env dev device commandPool graphicsQueue).app._bottomAS, b),
          ((run env dev device commandPool graphicsQueue).app._topAS, t) ] ∧
      deviceLocalBuffers (run env dev device commandPool graphicsQueue).trace =
        [ (max b t, scratchBuffer) ] ∧
      buildCommands (run env dev device commandPool graphicsQueue).trace =
        [ (VK_ACCELERATION_STRUCTURE_TYPE_BOTTOM_LEVEL_NV,
            (run env dev device commandPool graphicsQueue).app._bottomAS, VK_NULL_HANDLE,
            scratchBuffer, 0),
          (VK_ACCELERATION_STRUCTURE_TYPE_TOP_LEVEL_NV,
            (run env dev device commandPool graphicsQueue).app._topAS, instanceBuffer,
            scratchBuffer, 0) ] ∧
      b ≤ max b t ∧ t ≤ max b t ∧ (max b t = b ∨ max b t = t) := by
  rw [run_of_firstFailure_eq_none env dev device commandPool graphicsQueue
    ((exitMessage_eq_none_iff env dev device commandPool graphicsQueue).1 hret)]
  exact ⟨_, _, _, _, rfl, rfl, rfl, le_max_left _ _, le_max_right _ _, max_choice _ _⟩

/-- C2 on the device `okDevice`, which reports 1024 and 1088 bytes: the scratch buffer is asked
for with 1088 bytes. -/
theorem CreateAccelerationStructures_scratch_buffer_has_the_larger_size_witness :
    (run testEnv okDevice 100 200 300).exitMessage = none ∧
      scratchQueries (run testEnv okDevice 100 200 300).trace = [(5, 1024), (12, 1088)] ∧
      deviceLocalBuffers (run testEnv okDevice 100 200 300).trace = [(1088, 18)] := by
  have hret : (run testEnv okDevice 100 200 300).exitMessage = none := by
    rw [exitMessage_eq_none_iff]
    exact firstFailure_of_allSucceed okDevice okDevice_allSucceed
  obtain ⟨b, t, s, i, h1, h2, _⟩ :=
    CreateAccelerationStructures_scratch_buffer_has_the_larger_size testEnv okDevice 100 200
      300 hret
  refine ⟨hret, ?_, ?_⟩
  · rw [run_of_firstFailure_eq_none testEnv okDevice 100 200 300
      (firstFailure_of_allSucceed okDevice okDevice_allSucceed)]
    rfl
  · rw [run_of_firstFailure_eq_none testEnv okDevice 100 200 300
      (firstFailure_of_allSucceed okDevice okDevice_allSucceed)]
    rfl

theorem names_create :
    Names "vkCreateAccelerationStructureNV" "vkCreateAccelerationStructureNV" :=
  ⟨[], [], rfl⟩

theorem names_allocate : Names "rt AS vkAllocateMemory" "vkAllocateMemory" :=
  ⟨"rt AS ".toList, [], rfl⟩

theorem names_bind :
    Names "vkBindAccelerationStructureMemoryNV" "vkBindAccelerationStructureMemoryNV" :=
  ⟨[], [], rfl⟩

/-- In a run cut at a failed check, a failed structure-creation, memory-allocation or
memory-bind call can only be the call of that check, and the message of the check names its
operation. -/
theorem failed_helper_call_is_cut_point (env : Env) (dev : Device) (d p q : Handle) :
    ∀ km ∈ checks, Passed dev km.1 → ¬ passes dev km.1 →
      ∀ c ∈ (straightLine env dev d p q).take (km.1 + 1), ∀ operation : String,
        c.failedOperation = some operation →
        Names km.2 operation ∧ (straightLine env dev d p q)[km.1]? = some c := by
  simp only [checks, List.forall_mem_cons, List.not_mem_nil, false_implies, implies_true,
    and_true]
  refine ⟨?_, ?_, ?_, ?_, ?_, ?_, ?_, ?_, ?_, ?_, ?_, ?_, ?_⟩
  all_goals
    intro hp hnp
    simp [Passed, checks, passes] at hp hnp
    simp only [straightLine, List.take_succ_cons, List.take_zero, List.forall_mem_cons,
      List.not_mem_nil, Call.failedOperation, hp, hnp, ne_eq, not_true_eq_false,
      not_false_eq_true, reduceIte, reduceCtorEq, false_implies, implies_true, and_true,
      true_and, List.getElem?_cons_succ, List.getElem?_cons_zero, Option.some.injEq, and_self,
      Nat.reduceAdd]
  all_goals
    rintro operation rfl
    first
      | exact names_create
      | exact names_allocate
      | exact names_bind

/-- C3: in every run of `CreateAccelerationStructures`, if a structure-creation, memory-
allocation or memory-bind call of the trace (from either invocation of the helper) returned a
non-success status, then the run ended in a fatal error at that call: it is the last call of
the trace, the reported message names the operation that failed, and no
`vkCmdBuildAccelerationStructureNV` call is anywhere in the trace. -/
theorem CreateAccelerationStructures_stops_at_failed_helper_call (env : Env) (dev : Device)
    (device commandPool graphicsQueue : Handle) (c : Call) (operation : String)
    (hc : c ∈ (run env dev device commandPool graphicsQueue).trace)
    (hfail : c.failedOperation = some operation) :
    ∃ message,
      (run env dev device commandPool graphicsQueue).exitMessage = some message ∧
      Names message operation ∧
      (run env dev device commandPool graphicsQueue).trace.getLast? = some c ∧
      ∀ e ∈ (run env dev device commandPool graphicsQueue).trace, e.isBuild = false := by
  rw [run_eq] at hc ⊢
  rcases firstFailure_spec dev with ⟨hf, hp⟩ | ⟨k, m, hkm, hf, hp, hnp⟩
  · exfalso
    rw [hf] at hc
    revert hfail
    revert c
    simp [Passed, checks, passes] at hp
    simp only [cutAt, Step.trace, straightLine, List.forall_mem_cons, List.not_mem_nil,
      Call.failedOperation, hp, ne_eq, not_true_eq_false, reduceIte, reduceCtorEq,
      false_implies, implies_true, and_true]
  · rw [hf] at hc ⊢
    have hk := checks_lt k m hkm
    obtain ⟨hn, hl⟩ :=
      failed_helper_call_is_cut_point env dev device commandPool graphicsQueue (k, m) hkm hp
        hnp c hc operation hfail
    refine ⟨m, rfl, hn, ?_, ?_⟩
    · simp only [cutAt, Step.trace]
      rw [getLast?_take_straightLine _ _ _ _ _ _ (by omega), hl]
    · exact no_build_in_take env dev device commandPool graphicsQueue (k + 1) (by omega)

/-- C3 on a device whose allocation for the top-level structure (call 13) fails. -/
theorem CreateAccelerationStructures_stops_at_failed_helper_call_witness :
    Call.vkAllocateMemory 100 ⟨832, 0⟩ (-2) 14 ∈
        (run testEnv (failingAt 13) 100 200 300).trace ∧
      (Call.vkAllocateMemory 100 ⟨832, 0⟩ (-2) 14).failedOperation = some "vkAllocateMemory" ∧
      ∃ message,
        (run testEnv (failingAt 13) 100 200 300).exitMessage = some message ∧
        Names message "vkAllocateMemory" ∧
        (run testEnv (failingAt 13) 100 200 300).trace.getLast? =
          some (Call.vkAllocateMemory 100 ⟨832, 0⟩ (-2) 14) ∧
        ∀ e ∈ (run testEnv (failingAt 13) 100 200 300).trace, e.isBuild = false :=
  ⟨List.mem_iff_getElem?.2 ⟨13, rfl⟩, rfl,
    CreateAccelerationStructures_stops_at_failed_helper_call testEnv (failingAt 13) 100 200 300
      (Call.vkAllocateMemory 100 ⟨832, 0⟩ (-2) 14) "vkAllocateMemory"
      (List.mem_iff_getElem?.2 ⟨13, rfl⟩) rfl⟩

/-- The walk over the trace of any run finds every build command backed. -/
theorem run_buildsBacked (env : Env) (dev : Device) (d p q : Handle) :
    buildsBacked ⟨[], []⟩ (run env dev d p q).trace = true := by
  rw [run_eq]
  rcases firstFailure_spec dev with ⟨hf, hp⟩ | ⟨k, m, hkm, hf, hp, -⟩
  · rw [hf]
    simp [Passed, checks, passes] at hp
    simp only [cutAt, Step.trace, straightLine, buildsBacked, Backing.step, hp, and_self,
      reduceIte, List.mem_cons, List.mem_singleton, true_or, or_true, decide_True,
      Bool.and_self, List.not_mem_nil, or_false]
  · rw [hf]
    have hk := checks_lt k m hkm
    exact buildsBacked_of_no_build _ _ (no_build_in_take env dev d p q (k + 1) (by omega))

/-- C10: in the call trace of every run of `CreateAccelerationStructures`, completed or stopped
by an error, every build command is preceded by the backing of its target: whenever the trace
is `pre`, then a build command targeting structure `dst`, then `post`, the part `pre` contains a
memory allocation that succeeded and, after it, a bind of the allocated memory to `dst` that
succeeded.  Equivalently, for every prefix of the trace, the structures targeted by a build
command in the prefix are among the structures with bound memory in the prefix. -/
theorem CreateAccelerationStructures_builds_only_structures_with_bound_memory (env : Env)
    (dev : Device) (device commandPool graphicsQueue : Handle) :
    (∀ (pre post : List Call) (commandBuffer : Handle) (info : VkAccelerationStructureInfoNV)
        (instanceData : Handle) (instanceOffset : VkDeviceSize) (update : Bool)
        (dst src scratch : Handle) (scratchOffset : VkDeviceSize),
      (run env dev device commandPool graphicsQueue).trace =
        pre ++ Call.vkCmdBuildAccelerationStructureNV commandBuffer info instanceData
          instanceOffset update dst src scratch scratchOffset :: post →
      ∃ (a1 a2 a3 : List Call) (device1 device2 : Handle) (allocateInfo : VkMemoryAllocateInfo)
        (memory : Handle) (bindInfoCount : Nat) (memoryOffset : VkDeviceSize)
        (deviceIndexCount : Nat),
        pre = a1 ++ Call.vkAllocateMemory device1 allocateInfo VK_SUCCESS memory :: a2 ++
          Call.vkBindAccelerationStructureMemoryNV device2 bindInfoCount
            { accelerationStructure := dst, memory := memory, memoryOffset := memoryOffset,
              deviceIndexCount := deviceIndexCount } VK_SUCCESS :: a3) ∧
    (∀ p, p <+: (run env dev device commandPool graphicsQueue).trace →
      builtStructures p ⊆ boundStructures p) := by
  have h2 : ∀ p, p <+: (run env dev device commandPool graphicsQueue).trace →
      ∀ S ∈ builtStructures p, S ∈ boundStructures p :=
    fun p hp => buildsBacked_sound _ _ (run_buildsBacked env dev device commandPool
      graphicsQueue) p hp
  refine ⟨?_, h2⟩
  intro pre post commandBuffer info instanceData instanceOffset update dst src scratch
    scratchOffset h
  have h3 := h2 (pre ++ [Call.vkCmdBuildAccelerationStructureNV commandBuffer info
    instanceData instanceOffset update dst src scratch scratchOffset])
    ⟨post, by rw [h]; simp⟩ dst (by simp [builtStructures, List.filterMap_append])
  have h4 : dst ∈ boundStructures pre := by
    simpa [boundStructures, backing, List.foldl_append, Backing.step] using h3
  obtain ⟨a1, a2, c, dv1, ai, dv, n, bi, hpre, hS⟩ := mem_boundStructures pre dst h4
  obtain ⟨as, mem, off, cnt⟩ := bi
  simp only at hS
  subst hS
  exact ⟨a1, a2, c, dv1, dv, ai, mem, n, off, cnt, hpre⟩

/-- C10 on the device `okDevice`: in the part of the trace that ends with the bottom-level
build (call 20, target 5) that target has bound memory, and likewise for the top-level build
(call 22, target 12). -/
theorem CreateAccelerationStructures_builds_only_structures_with_bound_memory_witness :
    5 ∈ boundStructures ((run testEnv okDevice 100 200 300).trace.take 21) ∧
      12 ∈ boundStructures ((run testEnv okDevice 100 200 300).trace.take 23) :=
  ⟨(CreateAccelerationStructures_builds_only_structures_with_bound_memory testEnv okDevice 100
      200 300).2 ((run testEnv okDevice 100 200 300).trace.take 21) (List.take_prefix _ _) (by
        rw [run_of_firstFailure_eq_none _ _ _ _ _ (firstFailure_of_allSucceed _ okDevice_allSucceed)]
        exact (List.mem_singleton.2 rfl : (5 : Handle) ∈ [5])),
   (CreateAccelerationStructures_builds_only_structures_with_bound_memory testEnv okDevice 100
      200 300).2 ((run testEnv okDevice 100 200 300).trace.take 23) (List.take_prefix _ _) (by
        rw [run_of_firstFailure_eq_none _ _ _ _ _ (firstFailure_of_allSucceed _ okDevice_allSucceed)]
        exact (List.mem_cons_of_mem _ (List.mem_singleton.2 rfl) : (12 : Handle) ∈ [5, 12]))⟩

/-- C9: in every run of `CreateAccelerationStructures`, for the handle query made by the run
and the 64-bit value `h` the device returns to it: the query comes after a successful creation
of a bottom-level structure and a successful bind of memory to it at offset 0, and is made on
that structure; every instance record the run copies into a buffer is the record with the
identity 3x4 transform, instanceId 0, mask 0xff, instanceOffset 0, the triangle-cull-disable
flag and accelerationStructureHandle `h`; and the instance data argument of every top-level
build command is a buffer into which that record was copied.  When the run is not stopped by an
error it has such a top-level build command. -/
theorem CreateAccelerationStructures_instance_record_carries_queried_handle (env : Env)
    (dev : Device) (device commandPool graphicsQueue : Handle) (dv as : Handle) (size : Nat)
    (code : VkResult) (h : Nat)
    (hq : Call.vkGetAccelerationStructureHandleNV dv as size code h ∈
      (run env dev device commandPool graphicsQueue).trace) :
    h < 2 ^ 64 ∧
    (∃ pre post,
      (run env dev device commandPool graphicsQueue).trace =
        pre ++ Call.vkGetAccelerationStructureHandleNV dv as size code h :: post ∧
      (∃ createInfo,
        createInfo.info.type = VK_ACCELERATION_STRUCTURE_TYPE_BOTTOM_LEVEL_NV ∧
        Call.vkCreateAccelerationStructureNV dv createInfo VK_SUCCESS as ∈ pre) ∧
      (∃ memory,
        Call.vkBindAccelerationStructureMemoryNV dv 1
          { accelerationStructure := as, memory := memory, memoryOffset := 0,
            deviceIndexCount := 0 } VK_SUCCESS ∈ pre)) ∧
    (∀ buffer record copySize copied,
      Call.CopyToBufferUsingMapUnmap buffer (HostData.instanceRecord record) copySize copied ∈
        (run env dev device commandPool graphicsQueue).trace →
      record =
        { transform := [1, 0, 0, 0, 0, 1, 0, 0, 0, 0, 1, 0], instanceId := 0, mask := 0xff,
          instanceOffset := 0, flags := VK_GEOMETRY_INSTANCE_TRIANGLE_CULL_DISABLE_BIT_NV,
          accelerationStructureHandle := h }) ∧
    (∀ commandBuffer info instanceData instanceOffset update dst src scratch scratchOffset,
      info.type = VK_ACCELERATION_STRUCTURE_TYPE_TOP_LEVEL_NV →
      Call.vkCmdBuildAccelerationStructureNV commandBuffer info instanceData instanceOffset
          update dst src scratch scratchOffset ∈
        (run env dev device commandPool graphicsQueue).trace →
      ∃ copySize copied,
        Call.CopyToBufferUsingMapUnmap instanceData
            (HostData.instanceRecord
              { transform := [1, 0, 0, 0, 0, 1, 0, 0, 0, 0, 1, 0], instanceId := 0,
                mask := 0xff, instanceOffset := 0,
                flags := VK_GEOMETRY_INSTANCE_TRIANGLE_CULL_DISABLE_BIT_NV,
                accelerationStructureHandle := h }) copySize copied ∈
          (run env dev device commandPool graphicsQueue).trace) ∧
    ((run env dev device commandPool graphicsQueue).exitMessage = none →
      ∃ commandBuffer info instanceData instanceOffset update dst src scratch scratchOffset,
        info.type = VK_ACCELERATION_STRUCTURE_TYPE_TOP_LEVEL_NV ∧
        Call.vkCmdBuildAccelerationStructureNV commandBuffer info instanceData instanceOffset
            update dst src scratch scratchOffset ∈
          (run env dev device commandPool graphicsQueue).trace) := by
  obtain ⟨n, htr, hp, hn⟩ := run_trace_eq_take env dev device commandPool graphicsQueue
  rw [htr] at hq ⊢
  obtain ⟨h8, heq⟩ := handle_query_is_call_8 env dev device commandPool graphicsQueue n dv as
    size code h hq
  simp only [Call.vkGetAccelerationStructureHandleNV.injEq] at heq
  obtain ⟨rfl, rfl, rfl, rfl, rfl⟩ := heq
  have hp8 := Passed.mono dev 8 (n - 1) (by omega) hp
  simp [Passed, checks, passes] at hp8
  refine ⟨Nat.mod_lt _ (by norm_num), ?_, ?_, ?_, ?_⟩
  · refine ⟨(straightLine env dev dv commandPool graphicsQueue).take 8,
      ((straightLine env dev dv commandPool graphicsQueue).take n).drop 9,
      take_eq_take_append_cons _ n 8 h8 (by rw [straightLine_length]; omega), ?_, ?_⟩
    · obtain ⟨g, h4⟩ : ∃ g, ((straightLine env dev dv commandPool graphicsQueue).take 8)[4]? =
          some (Call.vkCreateAccelerationStructureNV dv
            ⟨0, ⟨VK_ACCELERATION_STRUCTURE_TYPE_BOTTOM_LEVEL_NV, 0, 0, 1, g⟩⟩ (dev 4).code
            (dev 4).handle) := ⟨_, rfl⟩
      rw [hp8.2.2.2.2.1] at h4
      exact ⟨_, rfl, List.mem_iff_getElem?.2 ⟨4, h4⟩⟩
    · have h7 : ((straightLine env dev dv commandPool graphicsQueue).take 8)[7]? =
          some (Call.vkBindAccelerationStructureMemoryNV dv 1
            ⟨(dev 4).handle, (dev 6).handle, 0, 0⟩ (dev 7).code) := rfl
      rw [hp8.2.2.2.2.2.2] at h7
      exact ⟨_, List.mem_iff_getElem?.2 ⟨7, h7⟩⟩
  · intro buffer record copySize copied hc
    have hsl := List.mem_of_mem_take hc
    simp only [straightLine, List.mem_cons, List.mem_singleton, List.not_mem_nil,
      reduceCtorEq, or_false, false_or, Call.CopyToBufferUsingMapUnmap.injEq,
      HostData.instanceRecord.injEq, and_false, false_and] at hsl
    exact hsl.2.1
  · intro commandBuffer info instanceData instanceOffset update dst src scratch scratchOffset
      htop hb
    rcases hn with ⟨hn, -⟩ | ⟨rfl, -⟩
    · have := no_build_in_take env dev dv commandPool graphicsQueue n (by omega) _ hb
      simp [Call.isBuild] at this
    · rw [List.take_of_length_le (by rw [straightLine_length])] at hb ⊢
      simp only [straightLine, List.mem_cons, List.mem_singleton, List.not_mem_nil,
        reduceCtorEq, or_false, false_or, Call.vkCmdBuildAccelerationStructureNV.injEq] at hb
      rcases hb with hb | hb
      · rw [hb.2.1] at htop
        simp at htop
      · obtain ⟨-, -, rfl, -⟩ := hb
        exact ⟨_, _, List.mem_iff_getElem?.2 ⟨10, rfl⟩⟩
  · intro hret
    rcases hn with ⟨-, hne⟩ | ⟨rfl, -⟩
    · exact absurd hret hne
    · exact ⟨_, _, _, _, _, _, _, _, _, rfl, List.mem_iff_getElem?.2 ⟨22, rfl⟩⟩

/-- C9 on the device `okDevice`, which answers the handle query with 1008. -/
theorem CreateAccelerationStructures_instance_record_carries_queried_handle_witness :
    Call.vkGetAccelerationStructureHandleNV 100 5 8 0 1008 ∈
        (run testEnv okDevice 100 200 300).trace ∧
      1008 < 2 ^ 64 ∧
      ∀ buffer record copySize copied,
        Call.CopyToBufferUsingMapUnmap buffer (HostData.instanceRecord record) copySize
            copied ∈ (run testEnv okDevice 100 200 300).trace →
        record =
          { transform := [1, 0, 0, 0, 0, 1, 0, 0, 0, 0, 1, 0], instanceId := 0, mask := 0xff,
            instanceOffset := 0, flags := VK_GEOMETRY_INSTANCE_TRIANGLE_CULL_DISABLE_BIT_NV,
            accelerationStructureHandle := 1008 } :=
  ⟨List.mem_iff_getElem?.2 ⟨8, rfl⟩,
   (CreateAccelerationStructures_instance_record_carries_queried_handle testEnv okDevice 100
      200 300 100 5 8 0 1008 (List.mem_iff_getElem?.2 ⟨8, rfl⟩)).1,
   (CreateAccelerationStructures_instance_record_carries_queried_handle testEnv okDevice 100
      200 300 100 5 8 0 1008 (List.mem_iff_getElem?.2 ⟨8, rfl⟩)).2.2.1⟩

/-- C5 fails on the code: the status codes of the scratch-buffer creation (call 17), of
`vkBeginCommandBuffer` (call 19), `vkEndCommandBuffer` (call 24), `vkQueueSubmit` (call 25)
and `vkQueueWaitIdle` (call 26) are not looked at.  When any one of them is an error the run
is not stopped: all 32 calls are made and the procedure returns.  For the scratch buffer, the
failed creation is call 17 and command-buffer allocation and both builds follow it. -/
theorem CreateAccelerationStructures_goes_on_after_unchecked_failures :
    (run testEnv (failingAt 17) 100 200 300).exitMessage = none ∧
    (run testEnv (failingAt 17) 100 200 300).trace.length = 32 ∧
    (run testEnv (failingAt 17) 100 200 300).trace[17]? =
      some (Call.BufferResource_Create 1088 VK_BUFFER_USAGE_RAY_TRACING_BIT_NV
        VK_MEMORY_PROPERTY_DEVICE_LOCAL_BIT (-2) 18) ∧
    (run testEnv (failingAt 17) 100 200 300).trace[18]? =
      some (Call.vkAllocateCommandBuffers 100 ⟨200, VK_COMMAND_BUFFER_LEVEL_PRIMARY, 1⟩
        VK_SUCCESS 19) ∧
    buildCommands (run testEnv (failingAt 17) 100 200 300).trace =
      [ (VK_ACCELERATION_STRUCTURE_TYPE_BOTTOM_LEVEL_NV, 5, 0, 18, 0),
        (VK_ACCELERATION_STRUCTURE_TYPE_TOP_LEVEL_NV, 12, 10, 18, 0) ] ∧
    (∀ k ∈ [19, 24, 25, 26],
      (run testEnv (failingAt k) 100 200 300).exitMessage = none ∧
      (run testEnv (failingAt k) 100 200 300).trace.length = 32) ∧
    (run testEnv (failingAt 9) 100 200 300).exitMessage = some "rt instanceBuffer.Create" := by
  refine ⟨rfl, rfl, rfl, rfl, rfl, ?_, rfl⟩
  intro k hk
  simp only [List.mem_cons, List.mem_singleton, List.not_mem_nil, or_false] at hk
  rcases hk with rfl | rfl | rfl | rfl <;> exact ⟨rfl, rfl⟩

/-- C6 fails on the code for the instance record: the result of the third copy (call 10) is
not looked at.  When that copy reports failure the run is not stopped, no message is
reported, and both build commands are recorded afterwards.  The first two copies are checked:
a failed copy of the vertex data or of the index data stops the run with a message naming the
buffer. -/
theorem CreateAccelerationStructures_goes_on_after_failed_instance_copy :
    (run testEnv (copyFailingAt 10) 100 200 300).exitMessage = none ∧
    (run testEnv (copyFailingAt 10) 100 200 300).trace[10]? =
      some (Call.CopyToBufferUsingMapUnmap 10
        (HostData.instanceRecord
          { transform := [1, 0, 0, 0, 0, 1, 0, 0, 0, 0, 1, 0], instanceId := 0, mask := 0xff,
            instanceOffset := 0, flags := VK_GEOMETRY_INSTANCE_TRIANGLE_CULL_DISABLE_BIT_NV,
            accelerationStructureHandle := 1008 }) 64 false) ∧
    buildCommands ((run testEnv (copyFailingAt 10) 100 200 300).trace.drop 11) =
      [ (VK_ACCELERATION_STRUCTURE_TYPE_BOTTOM_LEVEL_NV, 5, 0, 18, 0),
        (VK_ACCELERATION_STRUCTURE_TYPE_TOP_LEVEL_NV, 12, 10, 18, 0) ] ∧
    (run testEnv (copyFailingAt 1) 100 200 300).exitMessage =
      some "Failed to copy vertex buffer" ∧
    (run testEnv (copyFailingAt 3) 100 200 300).exitMessage =
      some "Failed to copy index buffer" :=
  ⟨rfl, rfl, rfl, rfl, rfl⟩

end VkRay
